import Mathlib

/-!
Verification development for the WhatsApp-productivity repository.

The development shallowly embeds the core of the repository:
the shared utilities (`packages/shared/src/utils`), the rule-based message
parser (`packages/mastra/src/agent/parser.ts`), the message dispatcher
(`packages/mastra/src/agent/handler.ts`), the task and reminder services
(`apps/api/src/services/task.service.ts`, `reminder.service.ts`), the job
queue wrapper (`apps/api/src/lib/queue.ts`), the delivery worker and the
sweeper.

Modelling conventions:
- Timestamps are integers (milliseconds since the Unix epoch), matching the
  JavaScript `Date.getTime()` representation.
- IANA timezone strings are modelled by their fixed UTC offset in minutes
  (`Asia/Kolkata` = 330).  None of the embedded code paths cross a DST
  boundary semantics difference for the properties proved here.
- Database string ids (cuids) are modelled by an injective generator from a
  per-entity counter; only freshness and distinctness of ids matter.
- The Prisma store is modelled by lists of rows inside `SystemState`;
  the BullMQ delayed queue by a list of pending jobs keyed by reminder id;
  outbound WhatsApp API calls by an `outbox` list.
- Confidence values (floats in [0,1] in the source) are modelled in
  hundredths as naturals (0.85 becomes 85).
-/

namespace WaProd

/-- Task status enum (`IDEA | TODO | DONE`). -/
inductive TaskStatus
  | IDEA
  | TODO
  | DONE
  deriving DecidableEq

/-- Task source enum (`WHATSAPP | WEB`). -/
inductive TaskSource
  | WHATSAPP
  | WEB
  deriving DecidableEq

/-- Reminder state enum. -/
inductive ReminderState
  | SCHEDULED
  | SENT
  | ACKED_DONE
  | ACKED_SNOOZE
  | FAILED
  | CANCELED
  deriving DecidableEq

/-- Reminder delivery mode enum (`SESSION_FREEFORM | TEMPLATE`). -/
inductive DeliveryMode
  | SESSION_FREEFORM
  | TEMPLATE
  deriving DecidableEq

/-- The closed intent union `AIIntent` of `packages/shared/src/types`. -/
inductive Intent
  | create_task
  | list_tasks
  | mark_done
  | snooze
  | edit_task
  | move_task
  | set_pref
  | help
  | unknown
  deriving DecidableEq

/-! ## Constants (`packages/shared/src/constants/index.ts`) -/

/-- `WHATSAPP_SESSION_WINDOW_MS = 24 * 60 * 60 * 1000`. -/
def WHATSAPP_SESSION_WINDOW_MS : Int := 24 * 60 * 60 * 1000

/-- `DEFAULT_SNOOZE_MINUTES = 15`. -/
def DEFAULT_SNOOZE_MINUTES : Int := 15

/-- `MAX_REMINDER_RETRIES = 3`. -/
def MAX_REMINDER_RETRIES : Nat := 3

/-- `DEFAULT_REMINDER_HOUR = 10`. -/
def DEFAULT_REMINDER_HOUR : Int := 10

/-- `DEFAULT_REMINDER_MINUTE = 0`. -/
def DEFAULT_REMINDER_MINUTE : Int := 0

/-- `AI_CONFIDENCE_THRESHOLD = 0.6`, in hundredths. -/
def AI_CONFIDENCE_THRESHOLD : Nat := 60

/-- `WHATSAPP_REMINDER_TEMPLATE_NAME = 'task_reminder_v1'`. -/
def WHATSAPP_REMINDER_TEMPLATE_NAME : String := "task_reminder_v1"

/-- `DEFAULT_TIMEZONE = 'Asia/Kolkata'`, modelled by its UTC offset (minutes). -/
def DEFAULT_TZ_OFFSET_MIN : Int := 330

/-! ## Character/string primitives

All text processing is done on `List Char` so that every definition reduces
in the kernel.  These mirror the JavaScript string primitives used by the
source (`toLowerCase`, `trim`, `startsWith`, `includes`, regex scans). -/

/-- JavaScript whitespace test for the `\s` regex class (ASCII subset). -/
def isWs (c : Char) : Bool :=
  c = ' ' || c = '\t' || c = '\n' || c = '\r'

/-- `needle` is a prefix of `hay` (character lists). -/
def startsWithL : List Char → List Char → Bool
  | [], _ => true
  | _ :: _, [] => false
  | a :: as, b :: bs => a = b && startsWithL as bs

/-- `String.prototype.includes`: `needle` occurs somewhere in `hay`. -/
def containsL (needle : List Char) : List Char → Bool
  | [] => startsWithL needle []
  | c :: cs => startsWithL needle (c :: cs) || containsL needle cs

/-- `String.prototype.trim` (character-list version). -/
def trimL (l : List Char) : List Char :=
  ((l.dropWhile isWs).reverse.dropWhile isWs).reverse

/-- `String.prototype.toLowerCase` (character-list version). -/
def lowerL (l : List Char) : List Char :=
  l.map Char.toLower

/-- Digits of a decimal run, as a natural (JavaScript `parseInt`). -/
def digitsToNat (l : List Char) : Nat :=
  l.foldl (fun acc c => acc * 10 + (c.toNat - '0'.toNat)) 0

/-- Maximal run of characters satisfying `p` at the head, with remainder. -/
def takeRun (p : Char → Bool) (l : List Char) : List Char × List Char :=
  (l.takeWhile p, l.dropWhile p)

/-- First alternative of `alts` that is a prefix of `l`, returning its length
(ordered alternation, as in a JavaScript regex `(a|b|c)`).  Matching is
case-insensitive: `l` is compared through `Char.toLower`, the alternatives
are given in lowercase. -/
def matchAlt (alts : List (List Char)) (l : List Char) : Option Nat :=
  alts.findSome? fun a => if startsWithL a (lowerL l) then some a.length else none

/-- Case-insensitive literal prefix match, returning the consumed length. -/
def matchLit (lit : List Char) (l : List Char) : Option Nat :=
  if startsWithL lit (lowerL l) then some lit.length else none

/-! ## Shared utilities (`packages/shared/src/utils/index.ts`) -/

/-- `truncate(text, maxLength)`: texts longer than the bound are cut to
`maxLength - 3` characters with an ellipsis appended. -/
def truncate (text : String) (maxLength : Nat) : String :=
  if text.data.length ≤ maxLength then text
  else String.mk (text.data.take (maxLength - 3)) ++ "..."

/-- `isWithinSessionWindow(lastInboundAt)`: true when the user's last inbound
message is at most `WHATSAPP_SESSION_WINDOW_MS` before `now` (`new Date()`
at the call site is made an explicit `now` argument). -/
def isWithinSessionWindow (lastInboundAt : Option Int) (now : Int) : Bool :=
  match lastInboundAt with
  | none => false
  | some t => now - t ≤ WHATSAPP_SESSION_WINDOW_MS

/-- `normalizePhoneNumber(phone)`: strip non-digit characters except `+`,
then ensure a leading `+` (10-digit numbers get the `+91` country code). -/
def normalizePhoneNumber (phone : String) : String :=
  let filtered := phone.data.filter fun c => c.isDigit || c = '+'
  if startsWithL ['+'] filtered then String.mk filtered
  else if filtered.length = 10 then String.mk ('+' :: '9' :: '1' :: filtered)
  else String.mk ('+' :: filtered)

/-- `detectIntentRuleBased(text)`: rule-based intent detection over the
lowercased, trimmed text. -/
def detectIntentRuleBased (text : String) : Intent × Option TaskStatus :=
  let lower := trimL (lowerL text.data)
  if lower = "list".data || lower = "tasks".data || lower = "show tasks".data then
    (.list_tasks, none)
  else if lower = "ideas".data || lower = "show ideas".data then
    (.list_tasks, some .IDEA)
  else if lower = "help".data || lower = "?".data then
    (.help, none)
  else if lower = "settings".data then
    (.set_pref, none)
  else if startsWithL "done:".data lower || startsWithL "done ".data lower
      || lower = "done".data then
    (.mark_done, none)
  else if startsWithL "snooze".data lower then
    (.snooze, none)
  else if startsWithL "idea:".data lower || containsL "brainstorm".data lower then
    (.create_task, some .IDEA)
  else if startsWithL "todo:".data lower then
    (.create_task, some .TODO)
  else if containsL "remind me".data lower || containsL "reminder".data lower then
    (.create_task, some .TODO)
  else if containsL "move".data lower &&
      (containsL "to idea".data lower || containsL "to todo".data lower
        || containsL "to done".data lower) then
    (.move_task, none)
  else
    (.create_task, some .TODO)

/-! ### `parseSnoozeRequest` (`packages/mastra/src/agent/parser.ts`)

The three regex scans `/(\d+)\s*(?:min(?:ute)?s?)/`, `/(\d+)\s*(?:h(?:(?:ou)?rs?)?)/`
and `/(\d+)/` are modelled by a leftmost scan for a maximal digit run whose
remainder (after optional whitespace) satisfies the unit check. -/

/-- Leftmost occurrence of a maximal digit run followed (after `\s*`) by a
remainder accepted by `check`; returns the run's numeric value. -/
def findNumWith (check : List Char → Bool) : List Char → Option Nat
  | [] => none
  | c :: cs =>
    if c.isDigit then
      let (run, rest) := takeRun Char.isDigit (c :: cs)
      let rest2 := rest.dropWhile isWs
      if check rest2 then some (digitsToNat run) else findNumWith check cs
    else findNumWith check cs

/-- `parseSnoozeRequest(text)`: snooze duration in minutes; `-1` is the
"tomorrow 10am" sentinel, `15` the default. -/
def parseSnoozeRequest (text : String) : Int :=
  let lower := lowerL text.data
  if containsL "tomorrow".data lower then -1
  else
    match findNumWith (fun r => startsWithL "min".data r) lower with
    | some n => (n : Int)
    | none =>
      match findNumWith (fun r => startsWithL "h".data r) lower with
      | some n => (n : Int) * 60
      | none =>
        match findNumWith (fun _ => true) lower with
        | some n => (n : Int)
        | none => 15

/-! ## Time model

Timestamps are epoch milliseconds.  `toZonedTime`/`fromZonedTime` of
`date-fns-tz` shift by the zone's fixed UTC offset (minutes). -/

def MS_PER_MINUTE : Int := 60000

def MS_PER_HOUR : Int := 3600000

def MS_PER_DAY : Int := 86400000

/-- `toZonedTime(t, timezone)`: shift into local wall-clock milliseconds. -/
def toZonedTime (t : Int) (tzOffsetMin : Int) : Int := t + tzOffsetMin * MS_PER_MINUTE

/-- `fromZonedTime(zt, timezone)`: shift local wall-clock back to UTC. -/
def fromZonedTime (zt : Int) (tzOffsetMin : Int) : Int := zt - tzOffsetMin * MS_PER_MINUTE

/-- Calendar day index (days since the epoch) of a zoned timestamp. -/
def dayIndex (zt : Int) : Int := zt.ediv MS_PER_DAY

/-- Milliseconds elapsed since local midnight. -/
def msOfDay (zt : Int) : Int := zt.emod MS_PER_DAY

/-- Local hour of day (0–23), `zonedRef.getHours()`. -/
def hourOfDay (zt : Int) : Int := (msOfDay zt).ediv MS_PER_HOUR

/-- Local minute of hour (0–59). -/
def minuteOfHour (zt : Int) : Int := ((msOfDay zt).emod MS_PER_HOUR).ediv MS_PER_MINUTE

/-- Two-digit zero-padded rendering of a (nonnegative) minute count. -/
def pad2 (n : Int) : String :=
  if n < 10 then "0" ++ toString n else toString n

/-- date-fns format `h:mm a` of a zoned timestamp. -/
def formatClock (zt : Int) : String :=
  let h24 := hourOfDay zt
  let h12 := if h24 % 12 = 0 then (12 : Int) else h24 % 12
  let suffix := if h24 < 12 then "AM" else "PM"
  toString h12 ++ ":" ++ pad2 (minuteOfHour zt) ++ " " ++ suffix

/-- `formatRelativeTime(date, timezone)` of the shared utils: "today h:mm a",
"tomorrow h:mm a", or an absolute date rendering.  The absolute branch's
`MMM d 'at' h:mm a` output is modelled by the day index (the exact month-name
rendering is presentation only and never branched on). -/
def formatRelativeTime (d : Int) (tzOffsetMin : Int) (now : Int) : String :=
  let zd := toZonedTime d tzOffsetMin
  let zn := toZonedTime now tzOffsetMin
  if dayIndex zd = dayIndex zn then "today " ++ formatClock zd
  else if dayIndex zd = dayIndex zn + 1 then "tomorrow " ++ formatClock zd
  else "day " ++ toString (dayIndex zd) ++ " at " ++ formatClock zd

/-- `formatDateIST(date, timezone)` of the handler: "today at h:mm a",
"tomorrow at h:mm a", or an absolute rendering (modelled by day index). -/
def formatDateIST (d : Int) (tzOffsetMin : Int) (now : Int) : String :=
  let zd := toZonedTime d tzOffsetMin
  let zn := toZonedTime now tzOffsetMin
  if dayIndex zd = dayIndex zn then "today at " ++ formatClock zd
  else if dayIndex zd = dayIndex zn + 1 then "tomorrow at " ++ formatClock zd
  else "day " ++ toString (dayIndex zd) ++ " at " ++ formatClock zd

/-- JavaScript `Math.ceil(a / b)` for integers (`b > 0`):
`ceil(x) = -floor(-x)`. -/
def jsCeilDiv (a b : Int) : Int := -((-a).ediv b)

/-- `getTomorrow10am(timezone)` of the parser: tomorrow at
`DEFAULT_REMINDER_HOUR:DEFAULT_REMINDER_MINUTE` local time.  date-fns
`setHours`/`setMinutes` preserve the seconds/milliseconds of the shifted
timestamp, which the model keeps. -/
def getTomorrow10am (tzOffsetMin : Int) (now : Int) : Int :=
  let zonedNow := toZonedTime now tzOffsetMin
  let tomorrow := zonedNow + MS_PER_DAY
  let secMs := tomorrow.emod MS_PER_MINUTE
  let at10 := dayIndex tomorrow * MS_PER_DAY
      + DEFAULT_REMINDER_HOUR * MS_PER_HOUR
      + DEFAULT_REMINDER_MINUTE * MS_PER_MINUTE + secMs
  fromZonedTime at10 tzOffsetMin

/-! ## Model of the external calendar parser (chrono-node)

`chrono-node` is a third-party dependency, not code of this repository, so
its behaviour relevant to `parseDateTime` is modelled here: a parse result
carries a resolved moment together with certainty flags for the hour and the
meridiem.  A date phrase with an explicit clock time ("at 5", "7:45pm")
yields a result whose hour is certain; a bare day word ("tomorrow", "today")
yields a result with an implied (not certain) hour of 12:00.  When nothing
date-like occurs, there is no result. -/

structure ChronoHit where
  hourCertain : Bool
  meridiemCertain : Bool
  hour : Int
  minute : Int
  dayOffset : Int
  deriving DecidableEq

/-- Leftmost explicit clock time in the text: digits, an optional `:MM`, an
optional `am`/`pm` (required unless the digits are preceded by `at `/`@`, or
a `:MM` part is present).  Returns `(hour24, minute, meridiem written)`. -/
def findClockTime : List Char → Option (Int × Int × Bool)
  | [] => none
  | c :: cs =>
    let l := c :: cs
    let attempt : Option (Int × Int × Bool) :=
      let afterKw : Option (List Char × Bool) :=
        match matchLit "at".data l with
        | some k =>
          let r := l.drop k
          let w := (r.takeWhile isWs).length
          if w = 0 then none else some (r.drop w, true)
        | none =>
          match matchLit "@".data l with
          | some k =>
            let r := l.drop k
            some (r.dropWhile isWs, true)
          | none => some (l, false)
      match afterKw with
      | none => none
      | some (body, kw) =>
        let (run, rest1) := takeRun Char.isDigit body
        if run.isEmpty || 2 < run.length then none
        else
          let hour := (digitsToNat run : Int)
          let (minute, rest2) :=
            match rest1 with
            | ':' :: a :: b :: r =>
              if a.isDigit && b.isDigit then ((digitsToNat [a, b] : Int), r)
              else ((-1 : Int), rest1)
            | _ => ((-1 : Int), rest1)
          let hasMinute := minute ≥ 0
          let rest3 := rest2.dropWhile isWs
          let mer : Option Bool :=
            match matchLit "am".data rest3 with
            | some _ => some false
            | none =>
              match matchLit "pm".data rest3 with
              | some _ => some true
              | none => none
          if kw = false ∧ hasMinute = false ∧ mer = none then none
          else
            let m := if hasMinute then minute else 0
            match mer with
            | some pm =>
              let h24 := if pm ∧ hour < 12 then hour + 12
                else if pm = false ∧ hour = 12 then 0 else hour
              some (h24, m, true)
            | none => some (hour, m, false)
    match attempt with
    | some hit => some hit
    | none => findClockTime cs

/-- Model of `chrono.parse(text, zonedRef, { forwardDate: true })` restricted
to the phrase forms the repository's parser feeds it. -/
def chronoParse (lower : List Char) : Option ChronoHit :=
  let hasTomorrow := containsL "tomorrow".data lower
  let hasToday := containsL "today".data lower
  match findClockTime lower with
  | some (h, m, merCertain) =>
    some { hourCertain := true, meridiemCertain := merCertain,
           hour := h, minute := m,
           dayOffset := if hasTomorrow then 1 else 0 }
  | none =>
    if hasTomorrow || hasToday then
      some { hourCertain := false, meridiemCertain := false,
             hour := 12, minute := 0,
             dayOffset := if hasTomorrow then 1 else 0 }
    else none

/-- `parseDateTime(text, timezone, referenceDate)` of the shared utils:
run the calendar parser over the text anchored at the zoned reference; if no
result or no certain hour, report no time found (`null`); otherwise apply
the AM/PM-ambiguity heuristic and the day-rollover rules and convert back to
UTC. -/
def parseDateTime (text : String) (tzOffsetMin : Int) (referenceDate : Int) : Option Int :=
  let zonedRef := toZonedTime referenceDate tzOffsetMin
  let currentHour := hourOfDay zonedRef
  let lower := lowerL text.data
  match chronoParse lower with
  | none => none
  | some hit =>
    if hit.hourCertain = false then none
    else
      let base := (dayIndex zonedRef + hit.dayOffset) * MS_PER_DAY
          + hit.hour * MS_PER_HOUR + hit.minute * MS_PER_MINUTE
      let date :=
        if hit.meridiemCertain = false ∧ 1 ≤ hit.hour ∧ hit.hour ≤ 11 ∧
            ((12 ≤ currentHour ∧ hit.hour < currentHour - 12) ∨
              (17 ≤ currentHour ∧ hit.hour < 12)) then
          base + 12 * MS_PER_HOUR
        else base
      let hasTomorrow := containsL "tomorrow".data lower
      let hasToday := containsL "today".data lower
      let date2 :=
        if hasTomorrow = false ∧ hasToday = false ∧ date < zonedRef then date + MS_PER_DAY
        else date
      some (fromZonedTime date2 tzOffsetMin)

/-- `applyDefaultTimeRules(parsedDate, text, timezone)`: returns the parsed
date unchanged (defaults are never fused into the primary resolver). -/
def applyDefaultTimeRules (parsedDate : Option Int) (_text : String)
    (_tzOffsetMin : Int) : Option Int :=
  match parsedDate with
  | none => none
  | some d => some d

/-! ## `extractTaskTitle` (`packages/shared/src/utils/index.ts`)

The command-prefix strip and the eight global time-expression regexes are
modelled by position matchers (`List Char → Option Nat`, consumed length)
driven by a left-to-right non-overlapping global-replace loop, reproducing
the JavaScript regex semantics (ordered alternation, greedy quantifiers) on
these patterns. -/

/-- Length of the leading whitespace run (`\s*`). -/
def wsRunLen (l : List Char) : Nat := (l.takeWhile isWs).length

/-- Consumed length of `^(remind me( to)?|todo:|idea:|task:)\s*`. -/
def stripPrefixLen (l : List Char) : Nat :=
  let low := lowerL l
  if startsWithL "remind me".data low then
    let extra := if startsWithL " to".data (low.drop 9) then 3 else 0
    let k := 9 + extra
    k + wsRunLen (l.drop k)
  else if startsWithL "todo:".data low then 5 + wsRunLen (l.drop 5)
  else if startsWithL "idea:".data low then 5 + wsRunLen (l.drop 5)
  else if startsWithL "task:".data low then 5 + wsRunLen (l.drop 5)
  else 0

/-- Matcher for the clock tail `\d{1,2}(:\d{2})?\s*(am|pm)?`. -/
def clockTailLen (l : List Char) : Option Nat :=
  let (run, _) := takeRun Char.isDigit l
  if run.isEmpty then none
  else
    let d := min run.length 2
    let rest1 := l.drop d
    let colon : Nat :=
      match rest1 with
      | ':' :: a :: b :: _ => if a.isDigit && b.isDigit then 3 else 0
      | _ => 0
    let rest2 := rest1.drop colon
    let sp := wsRunLen rest2
    let mer := match matchAlt ["am".data, "pm".data] (rest2.drop sp) with
      | some n => n
      | none => 0
    some (d + colon + sp + mer)

/-- Matcher for `\s+(at|@|by)\s+\d{1,2}(:\d{2})?\s*(am|pm)?`. -/
def patAt (l : List Char) : Option Nat :=
  let w := wsRunLen l
  if w = 0 then none
  else
    let r1 := l.drop w
    let tryKw : List Char → Option Nat := fun kw =>
      match matchLit kw r1 with
      | none => none
      | some k =>
        let r2 := r1.drop k
        let w2 := wsRunLen r2
        if w2 = 0 then none
        else
          match clockTailLen (r2.drop w2) with
          | none => none
          | some c => some (w + k + w2 + c)
    ((tryKw "at".data).orElse fun _ =>
      (tryKw "@".data).orElse fun _ => tryKw "by".data)

/-- Consumed length of the optional tail
`\s*(morning|afternoon|evening|at\s+\d{1,2}(:\d{2})?\s*(am|pm)?)?`. -/
def dayWordTailLen (l : List Char) : Nat :=
  let sp := wsRunLen l
  let r := l.drop sp
  match matchAlt ["morning".data, "afternoon".data, "evening".data] r with
  | some n => sp + n
  | none =>
    match matchLit "at".data r with
    | some k =>
      let r2 := r.drop k
      let w2 := wsRunLen r2
      if w2 = 0 then sp
      else
        match clockTailLen (r2.drop w2) with
        | some c => sp + k + w2 + c
        | none => sp
    | none => sp

/-- Matcher for `\s+tomorrow\s*(morning|afternoon|evening|at ...)?`. -/
def patTomorrow (l : List Char) : Option Nat :=
  let w := wsRunLen l
  if w = 0 then none
  else
    match matchLit "tomorrow".data (l.drop w) with
    | none => none
    | some k => some (w + k + dayWordTailLen (l.drop (w + k)))

/-- Matcher for `\s+today\s*(morning|afternoon|evening|at ...)?`. -/
def patToday (l : List Char) : Option Nat :=
  let w := wsRunLen l
  if w = 0 then none
  else
    match matchLit "today".data (l.drop w) with
    | none => none
    | some k => some (w + k + dayWordTailLen (l.drop (w + k)))

/-- JavaScript `\w` word-character class. -/
def isWordChar (c : Char) : Bool := c.isAlphanum || c = '_'

/-- Largest `j ≥ 1` such that `run` has the literal "day" at position `j`
(the backtracking search of `\w+day` inside a word run). -/
def lastDayPos (run : List Char) : Option Nat :=
  (List.range run.length).reverse.findSome? fun j =>
    if 1 ≤ j ∧ startsWithL "day".data (run.drop j) then some j else none

/-- Matcher for `\s+on\s+\w+day`. -/
def patOn (l : List Char) : Option Nat :=
  let w := wsRunLen l
  if w = 0 then none
  else
    match matchLit "on".data (l.drop w) with
    | none => none
    | some k =>
      let r := l.drop (w + k)
      let w2 := wsRunLen r
      if w2 = 0 then none
      else
        let (run, _) := takeRun isWordChar (r.drop w2)
        match lastDayPos (lowerL run) with
        | none => none
        | some j => some (w + k + w2 + j + 3)

/-- Matcher for the unit `(minutes?|hours?|days?)`. -/
def matchTimeUnit (l : List Char) : Option Nat :=
  (matchLit "minute".data l).map (fun n =>
      n + (if startsWithL "s".data (lowerL (l.drop n)) then 1 else 0))
  |>.orElse fun _ =>
    (matchLit "hour".data l).map (fun n =>
        n + (if startsWithL "s".data (lowerL (l.drop n)) then 1 else 0))
    |>.orElse fun _ =>
      (matchLit "day".data l).map fun n =>
        n + (if startsWithL "s".data (lowerL (l.drop n)) then 1 else 0)

/-- Matcher for `\s+in\s+\d+\s*(minutes?|hours?|days?)`. -/
def patIn (l : List Char) : Option Nat :=
  let w := wsRunLen l
  if w = 0 then none
  else
    match matchLit "in".data (l.drop w) with
    | none => none
    | some k =>
      let r := l.drop (w + k)
      let w2 := wsRunLen r
      if w2 = 0 then none
      else
        let (run, rest) := takeRun Char.isDigit (r.drop w2)
        if run.isEmpty then none
        else
          let sp := wsRunLen rest
          match matchTimeUnit (rest.drop sp) with
          | none => none
          | some u => some (w + k + w2 + run.length + sp + u)

/-- Matcher for `\s+next\s+(monday|...|sunday)`. -/
def patNext (l : List Char) : Option Nat :=
  let w := wsRunLen l
  if w = 0 then none
  else
    match matchLit "next".data (l.drop w) with
    | none => none
    | some k =>
      let r := l.drop (w + k)
      let w2 := wsRunLen r
      if w2 = 0 then none
      else
        match matchAlt ["monday".data, "tuesday".data, "wednesday".data,
            "thursday".data, "friday".data, "saturday".data, "sunday".data]
            (r.drop w2) with
        | none => none
        | some n => some (w + k + w2 + n)

/-- Matcher for `\s+this\s+(morning|afternoon|evening|night)`. -/
def patThis (l : List Char) : Option Nat :=
  let w := wsRunLen l
  if w = 0 then none
  else
    match matchLit "this".data (l.drop w) with
    | none => none
    | some k =>
      let r := l.drop (w + k)
      let w2 := wsRunLen r
      if w2 = 0 then none
      else
        match matchAlt ["morning".data, "afternoon".data, "evening".data,
            "night".data] (r.drop w2) with
        | none => none
        | some n => some (w + k + w2 + n)

/-- Matcher for `\s+tonight`. -/
def patTonight (l : List Char) : Option Nat :=
  let w := wsRunLen l
  if w = 0 then none
  else
    match matchLit "tonight".data (l.drop w) with
    | none => none
    | some k => some (w + k)

/-- Left-to-right non-overlapping global replace (`String.replace` with a
`/g` regex): at each position, drop a match if the matcher accepts, else keep
the character and move on.  Structural recursion on a fuel bounded by the
text length (every accepted match consumes at least one character). -/
def replaceAllGo (pat : List Char → Option Nat) : Nat → List Char → List Char
  | 0, l => l
  | _ + 1, [] => []
  | fuel + 1, c :: cs =>
    match pat (c :: cs) with
    | some n =>
      if n = 0 then c :: replaceAllGo pat fuel cs
      else replaceAllGo pat fuel ((c :: cs).drop n)
    | none => c :: replaceAllGo pat fuel cs

/-- Global replace entry point (fuel instantiated at the text length). -/
def replaceAllWith (pat : List Char → Option Nat) (l : List Char) : List Char :=
  replaceAllGo pat l.length l

/-- `title.replace(/\s+/g, ' ')`: collapse whitespace runs to single spaces. -/
def squeezeWs : List Char → List Char
  | [] => []
  | [c] => [if isWs c then ' ' else c]
  | a :: b :: rest =>
    if isWs a && isWs b then squeezeWs (b :: rest)
    else (if isWs a then ' ' else a) :: squeezeWs (b :: rest)

/-- The eight time-expression patterns, in source order. -/
def timePatterns : List (List Char → Option Nat) :=
  [patAt, patTomorrow, patToday, patOn, patIn, patNext, patThis, patTonight]

/-- `extractTaskTitle(text)`: strip the command prefix, remove time
expressions, collapse whitespace. -/
def extractTaskTitle (text : String) : String :=
  let chars := text.data
  let afterPrefix := trimL (chars.drop (stripPrefixLen chars))
  let stripped := timePatterns.foldl (fun acc p => replaceAllWith p acc) afterPrefix
  String.mk (trimL (squeezeWs stripped))

/-! ## Rule-based parser (`packages/mastra/src/agent/parser.ts`) -/

/-- The `task` draft of an `AIParsedResult`. -/
structure TaskDraft where
  title : String
  notes : Option String := none
  status : Option TaskStatus := none
  dueAt : Option Int := none
  reminderAt : Option Int := none
  deriving DecidableEq

/-- `AIParsedResult` (confidence in hundredths). -/
structure AIParsedResult where
  intent : Intent
  task : Option TaskDraft := none
  taskId : Option String := none
  snoozeMinutes : Option Int := none
  confidence : Nat
  deriving DecidableEq

/-- Remainder of `hay` after the first occurrence of `needle`. -/
def afterFirst (needle : List Char) : List Char → Option (List Char)
  | [] => if needle.isEmpty then some [] else none
  | c :: cs =>
    if startsWithL needle (c :: cs) then some ((c :: cs).drop needle.length)
    else afterFirst needle cs

/-- The capture of `/done:?\s*(.+)?/` followed by `.trim() || undefined`. -/
def parseDoneRef (lower : List Char) : Option String :=
  match afterFirst "done".data lower with
  | none => none
  | some rest =>
    let rest1 := match rest with
      | ':' :: r => r
      | _ => rest
    let captured := trimL (rest1.dropWhile isWs)
    if captured.isEmpty then none else some (String.mk captured)

/-- The captures of `/snooze\s*(\d+)?\s*(min|minute|h|hour|hr)?s?/i`:
the digits (if any) and whether the captured unit starts with 'h'. -/
def parseSnoozeCapture (lower : List Char) : Option Nat × Bool :=
  match afterFirst "snooze".data lower with
  | none => (none, false)
  | some rest =>
    let r1 := rest.dropWhile isWs
    let (run, r2) := takeRun Char.isDigit r1
    if run.isEmpty then (none, false)
    else
      let r3 := r2.dropWhile isWs
      let unitH :=
        match matchAlt ["min".data, "minute".data, "h".data, "hour".data,
            "hr".data] r3 with
        | some _ => startsWithL "h".data (lowerL r3)
        | none => false
      (some (digitsToNat run), unitH)

/-- Matcher for the separator `\s+to\s+(idea|todo|done)s?` of the move regex,
returning the captured target. -/
def matchToKw (l : List Char) : Option TaskStatus :=
  let w := wsRunLen l
  if w = 0 then none
  else
    match matchLit "to".data (l.drop w) with
    | none => none
    | some k =>
      let r := l.drop (w + k)
      let w2 := wsRunLen r
      if w2 = 0 then none
      else
        let body := r.drop w2
        if startsWithL "idea".data (lowerL body) then some .IDEA
        else if startsWithL "todo".data (lowerL body) then some .TODO
        else if startsWithL "done".data (lowerL body) then some .DONE
        else none

/-- Lazy title scan of `(.+?)\s+to\s+(idea|todo|done)s?`: grow the title one
character at a time until the separator matches. -/
def moveScan (acc : List Char) : List Char → Option (List Char × TaskStatus)
  | [] => none
  | c :: cs =>
    let acc2 := acc ++ [c]
    match matchToKw cs with
    | some st => some (acc2, st)
    | none => moveScan acc2 cs

/-- The captures of `/move\s+(.+?)\s+to\s+(idea|todo|done)s?/i`
(leftmost `move` admitting a full match). -/
def parseMoveCapture : List Char → Option (String × TaskStatus)
  | [] => none
  | c :: cs =>
    let l := c :: cs
    let attempt : Option (String × TaskStatus) :=
      if startsWithL "move".data (lowerL l) then
        let r := l.drop 4
        let w := wsRunLen r
        if w = 0 then none
        else
          match moveScan [] (r.drop w) with
          | some (t, st) => some (String.mk t, st)
          | none => none
      else none
    match attempt with
    | some hit => some hit
    | none => parseMoveCapture cs

/-- The `unknown` fallback result: store the raw text as an idea. -/
def fallbackUnknown (text : String) : AIParsedResult :=
  { intent := .unknown,
    task := some { title := text, status := some .IDEA },
    confidence := 30 }

/-- `parseWithRules(text, timezone, currentTime)`. -/
def parseWithRules (text : String) (tzOffsetMin : Int) (currentTime : Int) :
    AIParsedResult :=
  let lower := trimL (lowerL text.data)
  let det := detectIntentRuleBased text
  let intent := det.1
  let detectedStatus := det.2
  if intent = .list_tasks then
    { intent := .list_tasks,
      task := detectedStatus.map fun st => { title := "", status := some st },
      confidence := 95 }
  else if intent = .help then
    { intent := .help, confidence := 95 }
  else if intent = .set_pref ∧ lower = "settings".data then
    { intent := .set_pref, confidence := 95 }
  else if intent = .mark_done then
    { intent := .mark_done, taskId := parseDoneRef lower, confidence := 90 }
  else if intent = .snooze then
    let cap := parseSnoozeCapture lower
    let minutes : Int :=
      match cap.1 with
      | none => 15
      | some n => if cap.2 then (n : Int) * 60 else (n : Int)
    { intent := .snooze, snoozeMinutes := some minutes, confidence := 90 }
  else if intent = .move_task then
    match parseMoveCapture lower with
    | some (t, target) =>
      { intent := .move_task,
        task := some { title := t,
                       status := some (if target = .DONE then .TODO else target) },
        confidence := 85 }
    | none => fallbackUnknown text
  else if intent = .create_task then
    let title := extractTaskTitle text
    let reminderAt0 := parseDateTime text tzOffsetMin currentTime
    let reminderAt := applyDefaultTimeRules reminderAt0 text tzOffsetMin
    let status := detectedStatus.getD .TODO
    let finalReminderAt := if status = .IDEA then none else reminderAt
    { intent := .create_task,
      task := some { title := if title = "" then text else title,
                     status := some status,
                     reminderAt := finalReminderAt },
      confidence := if title = "" then 70 else 85 }
  else fallbackUnknown text

/-- `parseMessage(text, context)`: with no OpenAI API key configured the
client is `null` and the rule-based result is returned unconditionally, so
the escalation path is the identity here. -/
def parseMessage (text : String) (tzOffsetMin : Int) (currentTime : Int) :
    AIParsedResult :=
  parseWithRules text tzOffsetMin currentTime

/-! ## Data model

Database rows (Prisma `User`, `Task`, `Reminder`), the BullMQ delayed queue,
and the outbound WhatsApp channel.  Database cuids are modelled by an
injective per-entity generator from a counter: only freshness matters. -/

/-- Opaque task id generator (injective via the length). -/
def mkTaskId (n : Nat) : String := String.mk ('t' :: List.replicate n 'k')

/-- Opaque reminder id generator (injective via the length). -/
def mkReminderId (n : Nat) : String := String.mk ('r' :: List.replicate n 'm')

/-- Opaque user id generator (injective via the length). -/
def mkUserId (n : Nat) : String := String.mk ('u' :: List.replicate n 's')

structure Task where
  id : String
  userId : String
  title : String
  notes : Option String := none
  status : TaskStatus
  dueAt : Option Int := none
  reminderAt : Option Int := none
  source : TaskSource := .WEB
  deriving DecidableEq

structure Reminder where
  id : String
  taskId : String
  userId : String
  scheduledAt : Int
  state : ReminderState
  sentAt : Option Int := none
  deliveryMode : Option DeliveryMode := none
  messageId : Option String := none
  retriesCount : Nat := 0
  lastError : Option String := none
  deriving DecidableEq

structure User where
  id : String
  whatsappNumber : String
  name : Option String := none
  tzOffsetMin : Int := DEFAULT_TZ_OFFSET_MIN
  lastInboundAt : Option Int := none
  isOnboarded : Bool := false
  deriving DecidableEq

/-- A pending delayed job in the `reminders` queue (jobId `reminder-<id>`
modelled by the reminder id itself). -/
structure Job where
  reminderId : String
  taskId : String
  userId : String
  runAt : Int
  deriving DecidableEq

/-- An outbound WhatsApp API call. -/
inductive Outbound
  | text (dst body : String)
  | interactiveButtons (dst body : String) (buttons : List (String × String))
  | interactiveList (dst body buttonText : String) (rows : List (String × String))
  | template (dst templateName : String) (params : List String)
  | reaction (dst messageId emoji : String)
  deriving DecidableEq

/-- The whole system state: the database tables, the delayed-job queue, the
outbound channel (`outbox` records every WhatsApp API call attempted), the
message-event log, and the id counters. -/
structure SystemState where
  users : List User := []
  tasks : List Task := []
  reminders : List Reminder := []
  jobs : List Job := []
  outbox : List Outbound := []
  events : List String := []
  nextUserId : Nat := 0
  nextTaskId : Nat := 0
  nextReminderId : Nat := 0
  deriving DecidableEq

/-- `prisma.task.findUnique({ where: { id } })`. -/
def findTask (s : SystemState) (tid : String) : Option Task :=
  s.tasks.find? fun t => t.id = tid

/-- `prisma.reminder.findUnique({ where: { id } })`. -/
def findReminder (s : SystemState) (rid : String) : Option Reminder :=
  s.reminders.find? fun r => r.id = rid

/-- `prisma.user.findUnique({ where: { id } })`. -/
def findUser (s : SystemState) (uid : String) : Option User :=
  s.users.find? fun u => u.id = uid

/-- `prisma.user.findUnique({ where: { whatsappNumber } })`. -/
def findUserByPhone (s : SystemState) (phone : String) : Option User :=
  s.users.find? fun u => u.whatsappNumber = phone

/-! ## Queue wrapper (`apps/api/src/lib/queue.ts`) -/

/-- Does a job with this deterministic id already sit in the queue? -/
def jobKeyExists (jobs : List Job) (rid : String) : Bool :=
  jobs.any fun j => j.reminderId = rid

/-- `scheduleReminderJob(reminderId, taskId, userId, scheduledAt)`: delay is
`max(0, scheduledAt - now)`; BullMQ `add` with an already-present `jobId`
keeps the existing job. -/
def scheduleReminderJob (jobs : List Job) (rid tid uid : String)
    (scheduledAt now : Int) : List Job :=
  if jobKeyExists jobs rid then jobs
  else jobs ++ [{ reminderId := rid, taskId := tid, userId := uid,
                  runAt := max now scheduledAt }]

/-- `cancelReminderJob(reminderId)`: remove the pending job if present. -/
def cancelReminderJob (jobs : List Job) (rid : String) : List Job :=
  jobs.filter fun j => j.reminderId ≠ rid

/-! ## WhatsApp service (`apps/api/src/services/whatsapp.service.ts`)

The HTTP transport is an external collaborator; a send's network result is
supplied by the caller as a `SendMessageResult` oracle where it matters (the
delivery worker).  Dispatcher-side sends record the API call in the outbox. -/

structure SendMessageResult where
  success : Bool
  messageId : Option String := none
  error : Option String := none
  deriving DecidableEq

/-- `sendTextMessage(to, text)` (API call recorded). -/
def sendTextMessage (s : SystemState) (dst body : String) : SystemState :=
  { s with outbox := s.outbox ++ [.text dst body] }

/-- `sendInteractiveButtons(to, bodyText, buttons)`: at most 3 buttons,
titles cut to 20 characters. -/
def sendInteractiveButtons (s : SystemState) (dst body : String)
    (buttons : List (String × String)) : SystemState :=
  { s with outbox := s.outbox ++
      [.interactiveButtons dst body
        ((buttons.take 3).map fun b => (b.1, String.mk (b.2.data.take 20)))] }

/-- `sendInteractiveList(to, bodyText, buttonText, sections)`. -/
def sendInteractiveList (s : SystemState) (dst body buttonText : String)
    (rows : List (String × String)) : SystemState :=
  { s with outbox := s.outbox ++ [.interactiveList dst body buttonText rows] }

/-- `sendTemplateMessage(to, templateName, parameters)`. -/
def sendTemplateMessage (s : SystemState) (dst templateName : String)
    (params : List String) : SystemState :=
  { s with outbox := s.outbox ++ [.template dst templateName params] }

/-- `sendReaction(to, messageId, emoji)`. -/
def sendReaction (s : SystemState) (dst messageId emoji : String) : SystemState :=
  { s with outbox := s.outbox ++ [.reaction dst messageId emoji] }

/-- `logMessageEvent(userId, direction, payload)`. -/
def logMessageEvent (s : SystemState) (uid direction : String) : SystemState :=
  { s with events := s.events ++ [direction ++ ":" ++ uid] }

/-- The three quick-reply buttons of a session-window reminder. -/
def reminderButtons (tid : String) : List (String × String) :=
  [("action_done_" ++ tid, "✅ Done"),
   ("action_snooze_" ++ tid, "⏰ Snooze"),
   ("action_edit_" ++ tid, "✏️ Edit")]

/-- The human time string of a reminder message (`task.dueAt`, else
`task.reminderAt`, else "now"). -/
def reminderTimeStr (user : User) (task : Task) (now : Int) : String :=
  match task.dueAt with
  | some d => formatRelativeTime d user.tzOffsetMin now
  | none =>
    match task.reminderAt with
    | some r => formatRelativeTime r user.tzOffsetMin now
    | none => "now"

/-- `sendReminderMessage(user, task)`: the session-window delivery-mode
decision.  Returns the message that is sent and the chosen mode; the
worker records the API call and consumes the transport result. -/
def sendReminderMessage (user : User) (task : Task) (now : Int) :
    Outbound × DeliveryMode :=
  let withinSession := isWithinSessionWindow user.lastInboundAt now
  let timeStr := reminderTimeStr user task now
  if withinSession then
    let bodyText := "🔔 reminder: " ++ task.title ++ "\n(" ++ timeStr ++ ")\n\ndone?"
    (.interactiveButtons user.whatsappNumber bodyText
        (((reminderButtons task.id).take 3).map fun b =>
          (b.1, String.mk (b.2.data.take 20))),
      .SESSION_FREEFORM)
  else
    (.template user.whatsappNumber WHATSAPP_REMINDER_TEMPLATE_NAME
        [truncate task.title 60, timeStr],
      .TEMPLATE)

/-- `sendTaskCreatedConfirmation(user, task)`. -/
def sendTaskCreatedConfirmation (s : SystemState) (user : User) (task : Task)
    (now : Int) : SystemState :=
  let statusEmoji := if task.status = .IDEA then "💡" else "✅"
  let statusLabel := if task.status = .IDEA then "ideas" else "to-do"
  let base := statusEmoji ++ " added to " ++ statusLabel ++ ": " ++ task.title
  let message :=
    match task.reminderAt with
    | some r =>
      base ++ " — " ++ formatRelativeTime r user.tzOffsetMin now ++ ". i'll remind you."
    | none => base
  sendTextMessage s user.whatsappNumber message

/-- `sendSnoozeOptions(user, taskId)`. -/
def sendSnoozeOptions (s : SystemState) (user : User) (taskId : String) :
    SystemState :=
  sendInteractiveList s user.whatsappNumber
    "How long do you want to snooze?" "Snooze options"
    [("snooze_15_" ++ taskId, "15 minutes"),
     ("snooze_60_" ++ taskId, "1 hour"),
     ("snooze_180_" ++ taskId, "3 hours"),
     ("snooze_tomorrow_" ++ taskId, "Tomorrow 10am")]

/-- The static help text. -/
def helpText : String :=
  "Here's how I can help:\n\n📝 *Create tasks*\n\"remind me tomorrow 9am to send the deck\"\n\"todo: review the proposal\"\n\"idea: build a newsletter app\"\n\n✅ *Manage tasks*\n\"done\" - mark last reminder done\n\"snooze 1h\" - snooze reminder\n\"list\" - show your tasks\n\"ideas\" - show saved ideas\n\n⚙️ *Settings*\n\"settings\" - open web dashboard\n\nJust send me natural messages and I'll understand!"

/-- `sendHelpMessage(user)` (static guidance text, content abbreviated). -/
def sendHelpMessage (s : SystemState) (user : User) : SystemState :=
  sendTextMessage s user.whatsappNumber helpText

/-- `sendTaskList(user, tasks, listType)`: empty-state message, else a
numbered list capped at 10 with an "...and N more" suffix. -/
def sendTaskList (s : SystemState) (user : User) (tasks : List Task)
    (listType : TaskStatus) (now : Int) : SystemState :=
  if tasks.isEmpty then
    let message :=
      if listType = .IDEA then
        "No ideas saved yet. Send 'idea: your idea' to add one."
      else "No tasks yet. Send me a reminder or task to get started!"
    sendTextMessage s user.whatsappNumber message
  else
    let emoji := if listType = .IDEA then "💡" else "📋"
    let header := if listType = .IDEA then "Your ideas" else "Your tasks"
    let body := (tasks.take 10).enum.foldl
      (fun acc it =>
        let timeStr :=
          match it.2.reminderAt with
          | some r => " (" ++ formatRelativeTime r user.tzOffsetMin now ++ ")"
          | none => ""
        acc ++ toString (it.1 + 1) ++ ". " ++ it.2.title ++ timeStr ++ "\n")
      (emoji ++ " " ++ header ++ ":\n\n")
    let body2 :=
      if 10 < tasks.length then
        body ++ "\n...and " ++ toString (tasks.length - 10) ++ " more"
      else body
    sendTextMessage s user.whatsappNumber body2

/-! ## Task service (`apps/api/src/services/task.service.ts`)

Every service operation returns the successor state together with an
`Except` carrying the thrown error, mirroring the promise rejection; state
mutations performed before a throw persist. -/

structure CreateTaskInput where
  userId : String
  title : String
  notes : Option String := none
  status : Option TaskStatus := none
  dueAt : Option Int := none
  reminderAt : Option Int := none
  source : Option TaskSource := none
  deriving DecidableEq

/-- `scheduleReminder(task)` (private helper): create a SCHEDULED reminder
row bound to the task's `reminderAt` and enqueue its delayed job. -/
def scheduleReminder (s : SystemState) (task : Task) (now : Int) : SystemState :=
  match task.reminderAt with
  | none => s
  | some t =>
    let rid := mkReminderId s.nextReminderId
    let r : Reminder :=
      { id := rid, taskId := task.id, userId := task.userId,
        scheduledAt := t, state := .SCHEDULED }
    { s with reminders := s.reminders ++ [r],
             nextReminderId := s.nextReminderId + 1,
             jobs := scheduleReminderJob s.jobs rid task.id task.userId t now }

/-- `createTask(input)`: insert the row (status defaults to TODO, source to
WEB) and schedule a reminder when `reminderAt` is set and the task is not
DONE. -/
def createTask (s : SystemState) (input : CreateTaskInput) (now : Int) :
    SystemState × Task :=
  let task : Task :=
    { id := mkTaskId s.nextTaskId, userId := input.userId,
      title := input.title, notes := input.notes,
      status := input.status.getD .TODO, dueAt := input.dueAt,
      reminderAt := input.reminderAt, source := input.source.getD .WEB }
  let s1 := { s with tasks := s.tasks ++ [task], nextTaskId := s.nextTaskId + 1 }
  if task.reminderAt.isSome ∧ task.status ≠ .DONE then
    (scheduleReminder s1 task now, task)
  else (s1, task)

/-- `cancelTaskReminders(taskId)` (private helper): for every SCHEDULED
reminder of the task, remove its queue job and set its state to CANCELED. -/
def cancelTaskReminders (s : SystemState) (tid : String) : SystemState :=
  let scheduled := s.reminders.filter fun r =>
    decide (r.taskId = tid ∧ r.state = ReminderState.SCHEDULED)
  { s with
    jobs := s.jobs.filter fun j => !(scheduled.any fun r => r.id = j.reminderId),
    reminders := s.reminders.map fun r =>
      if r.taskId = tid ∧ r.state = ReminderState.SCHEDULED then
        { r with state := .CANCELED }
      else r }

/-- `UpdateTaskInput`: field presence (`'key' in input`) is modelled by the
outer `Option`; the inner value of `notes`/`dueAt`/`reminderAt` may be the
explicit `null`. -/
structure UpdateTaskInput where
  title : Option String := none
  notes : Option (Option String) := none
  status : Option TaskStatus := none
  dueAt : Option (Option Int) := none
  reminderAt : Option (Option Int) := none
  deriving DecidableEq

/-- Apply present fields of an update to a task row. -/
def applyTaskUpdate (t : Task) (u : UpdateTaskInput) : Task :=
  { t with title := u.title.getD t.title,
           notes := u.notes.getD t.notes,
           status := u.status.getD t.status,
           dueAt := u.dueAt.getD t.dueAt,
           reminderAt := u.reminderAt.getD t.reminderAt }

/-- `updateTask(taskId, input)`: throws `Task not found` when missing;
when `reminderAt` or `status` is present, cancel the task's reminders and
re-schedule if the updated task still has a future-facing reminder. -/
def updateTask (s : SystemState) (tid : String) (u : UpdateTaskInput)
    (now : Int) : SystemState × Except String Task :=
  match findTask s tid with
  | none => (s, .error "Task not found")
  | some t0 =>
    let t := applyTaskUpdate t0 u
    let s1 := { s with tasks := s.tasks.map fun (x : Task) => if x.id = tid then t else x }
    if u.reminderAt.isSome || u.status.isSome then
      let s2 := cancelTaskReminders s1 tid
      if t.reminderAt.isSome ∧ t.status ≠ .DONE then
        (scheduleReminder s2 t now, .ok t)
      else (s2, .ok t)
    else (s1, .ok t)

/-- `moveTask(taskId, status)`: update the status, then (for DONE) cancel
all reminders of the task. -/
def moveTask (s : SystemState) (tid : String) (st : TaskStatus) (now : Int) :
    SystemState × Except String Task :=
  match updateTask s tid { status := some st } now with
  | (s1, .error e) => (s1, .error e)
  | (s1, .ok t) =>
    if st = .DONE then (cancelTaskReminders s1 tid, .ok t) else (s1, .ok t)

/-- `markTaskDone(taskId) = moveTask(taskId, 'DONE')`. -/
def markTaskDone (s : SystemState) (tid : String) (now : Int) :
    SystemState × Except String Task :=
  moveTask s tid .DONE now

/-- `deleteTask(taskId)`: cancel the task's reminders, then delete the row
(the delete itself rejects when the row is missing). -/
def deleteTask (s : SystemState) (tid : String) : SystemState × Except String Unit :=
  let s1 := cancelTaskReminders s tid
  match findTask s1 tid with
  | none => (s1, .error "Record not found")
  | some _ => ({ s1 with tasks := s1.tasks.filter fun t => t.id ≠ tid }, .ok ())

/-- `snoozeTask(taskId, minutes)`: cancel existing reminders, move the
task's `reminderAt` to `now + minutes`, create a fresh SCHEDULED reminder
and enqueue its job.  The `prisma.task.update` rejects when the task row is
missing — after the cancellation already happened. -/
def snoozeTask (s : SystemState) (tid : String) (minutes : Int) (now : Int) :
    SystemState × Except String (Task × Reminder) :=
  let newReminderAt := now + minutes * MS_PER_MINUTE
  let s1 := cancelTaskReminders s tid
  match findTask s1 tid with
  | none => (s1, .error "Record not found")
  | some t0 =>
    let t := { t0 with reminderAt := some newReminderAt }
    let s2 := { s1 with tasks := s1.tasks.map fun (x : Task) => if x.id = tid then t else x }
    let rid := mkReminderId s2.nextReminderId
    let r : Reminder :=
      { id := rid, taskId := tid, userId := t.userId,
        scheduledAt := newReminderAt, state := .SCHEDULED }
    let s3 := { s2 with reminders := s2.reminders ++ [r],
                        nextReminderId := s2.nextReminderId + 1 }
    ({ s3 with jobs := scheduleReminderJob s3.jobs rid tid t.userId newReminderAt now },
      .ok (t, r))

/-! ## Reminder service (`apps/api/src/services/reminder.service.ts`) -/

/-- Update the reminder row with this id through `g` (a Prisma
`reminder.update` keyed by id). -/
def applyReminderUpdate (s : SystemState) (rid : String)
    (g : Reminder → Reminder) : SystemState :=
  { s with reminders := s.reminders.map fun r => if r.id = rid then g r else r }

/-- `updateReminderState(id, state, updates?)`: set the state; set `sentAt`
and `messageId` when given; when `lastError` is given, record it and
increment `retriesCount`. -/
def updateReminderState (s : SystemState) (rid : String) (st : ReminderState)
    (sentAt : Option Int) (messageId : Option String)
    (lastError : Option String) : SystemState :=
  applyReminderUpdate s rid fun r =>
    let r1 := { r with state := st }
    let r2 := match sentAt with
      | some t => { r1 with sentAt := some t }
      | none => r1
    let r3 := match messageId with
      | some m => { r2 with messageId := some m }
      | none => r2
    match lastError with
    | some e => { r3 with lastError := some e, retriesCount := r3.retriesCount + 1 }
    | none => r3

/-- `markReminderSent(id, messageId?, deliveryMode?)`. -/
def markReminderSent (s : SystemState) (rid : String)
    (messageId : Option String) (deliveryMode : Option DeliveryMode)
    (now : Int) : SystemState :=
  applyReminderUpdate s rid fun r =>
    { r with state := .SENT, sentAt := some now,
             messageId := (match messageId with
               | some m => some m
               | none => r.messageId),
             deliveryMode := (match deliveryMode with
               | some m => some m
               | none => r.deliveryMode) }

/-- `markReminderFailed(id, error)`. -/
def markReminderFailed (s : SystemState) (rid : String) (err : String) :
    SystemState :=
  applyReminderUpdate s rid fun r =>
    { r with state := .FAILED, lastError := some err,
             retriesCount := r.retriesCount + 1 }

/-- `cancelReminder(id)`: remove the queue job, set state CANCELED.
(Defined by the service; no caller in the repository invokes it.) -/
def cancelReminder (s : SystemState) (rid : String) : SystemState :=
  let s1 := { s with jobs := cancelReminderJob s.jobs rid }
  applyReminderUpdate s1 rid fun r => { r with state := .CANCELED }

/-- `rescheduleReminder(id, newScheduledAt)`: cancel the old job, move the
row back to SCHEDULED at the new time, enqueue a new job.  (Defined by the
service; no caller in the repository invokes it.) -/
def rescheduleReminder (s : SystemState) (rid : String)
    (newScheduledAt now : Int) : SystemState × Except String Reminder :=
  let s1 := { s with jobs := cancelReminderJob s.jobs rid }
  match findReminder s1 rid with
  | none => (s1, .error "Record not found")
  | some r0 =>
    let s2 := applyReminderUpdate s1 rid fun x =>
      { x with scheduledAt := newScheduledAt, state := .SCHEDULED }
    ({ s2 with jobs := (scheduleReminderJob s2.jobs rid r0.taskId r0.userId
          newScheduledAt now) },
      .ok { r0 with scheduledAt := newScheduledAt, state := .SCHEDULED })

/-- `getRecentSentReminder(userId)`: most recent SENT reminder of the user
whose `sentAt` lies within the trailing 5 minutes, together with its task
row (the Prisma `include`; the task may be absent). -/
def getRecentSentReminder (s : SystemState) (uid : String) (now : Int) :
    Option (Reminder × Option Task) :=
  let fiveMinutesAgo := now - 5 * MS_PER_MINUTE
  let candidates := s.reminders.filter fun r =>
    decide (r.userId = uid) && decide (r.state = ReminderState.SENT) &&
      (match r.sentAt with
       | some t => decide (fiveMinutesAgo ≤ t)
       | none => false)
  let pick := candidates.foldl
    (fun best r =>
      match best with
      | none => some r
      | some b => if b.sentAt.getD 0 < r.sentAt.getD 0 then some r else some b)
    none
  pick.map fun r => (r, findTask s r.taskId)

/-- `getStuckReminders()`: reminders still SCHEDULED whose `scheduledAt` is
more than 5 minutes in the past (batch of 50). -/
def getStuckReminders (s : SystemState) (now : Int) : List Reminder :=
  (s.reminders.filter fun r =>
    decide (r.scheduledAt ≤ now - 5 * MS_PER_MINUTE) &&
      decide (r.state = ReminderState.SCHEDULED)).take 50

/-! ## Delivery worker (`reminderWorker`, unnamed source part)

A delivery attempt for one queued job.  The WhatsApp transport outcome is
the `sendResult` oracle; `now` is the wall clock at processing time.  The
`thrown` outcome models the re-thrown error that engages the queue's
retry/backoff. -/

inductive WorkerOutcome
  | completed
  | thrown (e : String)
  deriving DecidableEq

def processReminder (s : SystemState) (rid : String)
    (sendResult : SendMessageResult) (now : Int) :
    SystemState × WorkerOutcome :=
  match findReminder s rid with
  | none => (s, .completed)
  | some r =>
    if r.state ≠ ReminderState.SCHEDULED then (s, .completed)
    else
      match findTask s r.taskId with
      | none => (updateReminderState s rid .CANCELED none none none, .completed)
      | some task =>
        if task.status = .DONE then
          (updateReminderState s rid .CANCELED none none none, .completed)
        else if MAX_REMINDER_RETRIES ≤ r.retriesCount then
          (markReminderFailed s rid "Max retries exceeded", .completed)
        else
          match findUser s r.userId with
          | none =>
            let err := "TypeError: user is null"
            (updateReminderState s rid .SCHEDULED none none (some err), .thrown err)
          | some u =>
            let mm := sendReminderMessage u task now
            let s1 := { s with outbox := s.outbox ++ [mm.1] }
            if sendResult.success then
              let s2 := markReminderSent s1 rid sendResult.messageId (some mm.2) now
              ({ s2 with events := s2.events ++ ["OUTBOUND:" ++ r.userId] },
                .completed)
            else
              let err := "Error: " ++ sendResult.error.getD "Unknown error sending reminder"
              (updateReminderState s1 rid .SCHEDULED none none (some err), .thrown err)

/-- `runSweeperOnce()`: re-enqueue every stuck reminder for immediate
execution (the reminder rows themselves are not touched). -/
def runSweeperOnce (s : SystemState) (now : Int) : SystemState :=
  (getStuckReminders s now).foldl
    (fun acc r =>
      { acc with jobs := scheduleReminderJob acc.jobs r.id r.taskId r.userId now now })
    s

/-! ## User service (`apps/api/src/services/user.service.ts`) -/

/-- `getOrCreateUserByWhatsApp(whatsappNumber)`. -/
def getOrCreateUserByWhatsApp (s : SystemState) (phone : String) :
    SystemState × User :=
  let normalized := normalizePhoneNumber phone
  match findUserByPhone s normalized with
  | some u => (s, u)
  | none =>
    let u : User := { id := mkUserId s.nextUserId, whatsappNumber := normalized }
    ({ s with users := s.users ++ [u], nextUserId := s.nextUserId + 1 }, u)

/-- `updateLastInbound(id)`: stamp the user's `lastInboundAt` with now. -/
def updateLastInbound (s : SystemState) (uid : String) (now : Int) : SystemState :=
  { s with users := s.users.map fun u =>
      if u.id = uid then { u with lastInboundAt := some now } else u }

/-- `updateUserName(id, name)`. -/
def updateUserName (s : SystemState) (uid name : String) : SystemState :=
  { s with users := s.users.map fun u =>
      if u.id = uid then { u with name := some name } else u }

/-- `markUserOnboarded(id)`. -/
def markUserOnboarded (s : SystemState) (uid : String) : SystemState :=
  { s with users := s.users.map fun u =>
      if u.id = uid then { u with isOnboarded := true } else u }

/-! ## Message dispatcher (`packages/mastra/src/agent/handler.ts`)

The handler's dependency bundle is wired to the api services
(`apps/api/src/routes/whatsapp.ts`), so the `deps.*` calls below are the
service functions embedded above.  A rejected promise inside an action is
an `Except.error`; state mutations made before the throw persist.
`Math.random()` in the done-celebration emoji is an explicit `rand`
argument. -/

structure HandleMessageResult where
  success : Bool
  action : String
  task : Option Task := none
  error : Option String := none
  deriving DecidableEq

/-- JavaScript falsiness of an optional string (undefined or empty). -/
def strFalsy : Option String → Bool
  | none => true
  | some s => s.data.isEmpty

/-- The retry prompt of `handleCreateTask` when no title was parsed. -/
def createRetryText : String :=
  "Hmm, I couldn't catch that. Could you try again? For example:\n\"Remind me to call the dentist at 4 PM\""

/-- `handleCreateTask(user, parsed, deps)`. -/
def handleCreateTask (s : SystemState) (user : User) (parsed : AIParsedResult)
    (now : Int) (messageId : Option String) :
    SystemState × Except String HandleMessageResult :=
  let noTitle : Bool :=
    match parsed.task with
    | none => true
    | some draft => draft.title.data.isEmpty
  if noTitle then
    (sendTextMessage s user.whatsappNumber createRetryText,
      .ok { success := false, action := "invalid_task", error := some "No title" })
  else
    let draft := (parsed.task).getD { title := "" }
    let created := createTask s
      { userId := user.id, title := draft.title, notes := draft.notes,
        status := some (draft.status.getD .TODO),
        reminderAt := draft.reminderAt, source := some .WHATSAPP } now
    let s1 := created.1
    let task := created.2
    let s2 := match messageId with
      | some mid => sendReaction s1 user.whatsappNumber mid "📝"
      | none => s1
    let greeting :=
      if strFalsy user.name then "Got it!"
      else "Got it, " ++ (user.name).getD "" ++ "!"
    let s3 := match task.reminderAt with
      | some r =>
        let timeStr := formatDateIST r user.tzOffsetMin now
        sendTextMessage s2 user.whatsappNumber
          (greeting ++ " ✅\n\n📌 \"" ++ task.title ++ "\"\n⏰ I'll remind you "
            ++ timeStr ++ "\n\nRelax, I've got your back! 😊")
      | none =>
        sendTextMessage s2 user.whatsappNumber
          (greeting ++ " ✅\n\n📌 Added to your to-do: \"" ++ task.title ++
            "\"\n\nWant me to remind you at a specific time? Just tell me when!")
    (s3, .ok { success := true, action := "task_created", task := some task })

/-- `handleListTasks(user, parsed, deps)`. -/
def handleListTasks (s : SystemState) (user : User) (parsed : AIParsedResult)
    (now : Int) : SystemState × Except String HandleMessageResult :=
  let listType : TaskStatus :=
    if (parsed.task.bind (·.status)) = some TaskStatus.IDEA then .IDEA else .TODO
  let tasks := s.tasks.filter fun t =>
    decide (t.userId = user.id) && decide (t.status = listType)
  let s1 :=
    if tasks.isEmpty then
      let who :=
        if strFalsy user.name then "friend" else (user.name).getD ""
      let message :=
        if listType = .IDEA then
          "No ideas saved yet, " ++ who ++
            "! 💭\n\nJust text me any thought and I'll save it."
        else
          "Your task list is clear, " ++ who ++
            "! 🎉\n\nSend me something to remind you about."
      sendTextMessage s user.whatsappNumber message
    else sendTaskList s user tasks listType now
  (s1, .ok { success := true, action := "list_sent" })

/-- The celebration emojis of `handleMarkDone`. -/
def celebrationEmojis : List String := ["🎉", "💪", "🙌", "⭐", "🏆"]

/-- `handleMarkDone(user, parsed, deps)`: resolve the target task by
explicit reference, else the most recent sent reminder, else a unique TODO
task; ambiguity and absence produce clarifying messages. -/
def handleMarkDone (s : SystemState) (user : User) (parsed : AIParsedResult)
    (now : Int) (messageId : Option String) (rand : Nat) :
    SystemState × Except String HandleMessageResult :=
  let step1 : Except String (Option String) :=
    if strFalsy parsed.taskId then
      match getRecentSentReminder s user.id now with
      | some (_, some t) => .ok (some t.id)
      | some (_, none) => .error "TypeError: task is null"
      | none => .ok parsed.taskId
    else .ok parsed.taskId
  match step1 with
  | .error e => (s, .error e)
  | .ok tid1 =>
    let resolved : Except String (Option String) × SystemState :=
      if strFalsy tid1 then
        let tasks := s.tasks.filter fun t =>
          decide (t.userId = user.id) && decide (t.status = TaskStatus.TODO)
        if tasks.length = 1 then (.ok (tasks.head?.map (·.id)), s)
        else if 1 < tasks.length then
          (.ok none,
            sendTextMessage s user.whatsappNumber
              ("Which task did you complete? You have " ++
                toString tasks.length ++ " active tasks. 📋"))
        else
          (.error "none", sendTextMessage s user.whatsappNumber
            "No active tasks to mark done! 🎉\n\nLooks like you're all caught up.")
      else (.ok tid1, s)
    match resolved with
    | (.error _, s1) =>
      (s1, .ok { success := false, action := "no_tasks" })
    | (.ok none, s1) =>
      (s1, .ok { success := false, action := "ambiguous_task" })
    | (.ok (some taskId), s1) =>
      match markTaskDone s1 taskId now with
      | (s2, .error e) => (s2, .error e)
      | (s2, .ok task) =>
        let s3 := match messageId with
          | some mid => sendReaction s2 user.whatsappNumber mid "✅"
          | none => s2
        let emoji := (celebrationEmojis.get? (rand % 5)).getD "🎉"
        let praise :=
          if strFalsy user.name then "" else ", " ++ (user.name).getD ""
        let s4 := sendTextMessage s3 user.whatsappNumber
          (emoji ++ " Done: \"" ++ task.title ++ "\"\n\nGreat job" ++ praise ++
            "! Keep crushing it!")
        (s4, .ok { success := true, action := "task_done", task := some task })

/-- `handleSnooze(user, parsed, deps)`: with no (or the default 15-minute)
parsed duration, send the snooze-options menu; otherwise resolve the
sentinel `-1` to tomorrow 10am and reschedule through `snoozeTask`. -/
def handleSnooze (s : SystemState) (user : User) (parsed : AIParsedResult)
    (now : Int) : SystemState × Except String HandleMessageResult :=
  let step1 : Except String (Option String) :=
    if strFalsy parsed.taskId then
      match getRecentSentReminder s user.id now with
      | some (_, some t) => .ok (some t.id)
      | some (_, none) => .error "TypeError: task is null"
      | none => .ok parsed.taskId
    else .ok parsed.taskId
  match step1 with
  | .error e => (s, .error e)
  | .ok tid1 =>
    if strFalsy tid1 then
      (sendTextMessage s user.whatsappNumber "No recent reminder to snooze. 🤔",
        .ok { success := false, action := "no_reminder_to_snooze" })
    else
      let taskId := tid1.getD ""
      let falsyOr15 : Bool :=
        match parsed.snoozeMinutes with
        | none => true
        | some m => m = 0 || m = DEFAULT_SNOOZE_MINUTES
      if falsyOr15 then
        (sendSnoozeOptions s user taskId,
          .ok { success := true, action := "snooze_options_sent" })
      else
        let m0 := (parsed.snoozeMinutes).getD 0
        let minutes :=
          if m0 = -1 then jsCeilDiv (getTomorrow10am user.tzOffsetMin now - now) 60000
          else m0
        match snoozeTask s taskId minutes now with
        | (s1, .error e) => (s1, .error e)
        | (s1, .ok tr) =>
          let newReminderTime := now + minutes * 60000
          let timeStr := formatDateIST newReminderTime user.tzOffsetMin now
          let s2 := sendTextMessage s1 user.whatsappNumber
            ("⏰ Snoozed: \"" ++ tr.1.title ++ "\"\n\nI'll remind you again "
              ++ timeStr)
          (s2, .ok { success := true, action := "task_snoozed", task := some tr.1 })

/-- `handleMoveTask(user, parsed, deps)`: chat-side moves defer to the web
dashboard. -/
def handleMoveTask (s : SystemState) (user : User) :
    SystemState × Except String HandleMessageResult :=
  (sendTextMessage s user.whatsappNumber
      "📱 Use the web dashboard to move tasks:\nhttps://wa-productivity-app.vercel.app/board",
    .ok { success := true, action := "move_instruction_sent" })

/-- `processIntent(user, originalText, parsed, deps)`: map the parsed intent
to its action.  `edit_task` has no case of its own and falls to the default
(unknown) branch, as in the source switch. -/
def processIntent (s : SystemState) (user : User) (parsed : AIParsedResult)
    (now : Int) (messageId : Option String) (rand : Nat) :
    SystemState × Except String HandleMessageResult :=
  match parsed.intent with
  | .create_task => handleCreateTask s user parsed now messageId
  | .list_tasks => handleListTasks s user parsed now
  | .mark_done => handleMarkDone s user parsed now messageId rand
  | .snooze => handleSnooze s user parsed now
  | .move_task => handleMoveTask s user
  | .help =>
    (sendHelpMessage s user, .ok { success := true, action := "help_sent" })
  | .set_pref =>
    (sendTextMessage s user.whatsappNumber
        "⚙️ Visit your dashboard to update settings:\nhttps://wa-productivity-app.vercel.app/settings",
      .ok { success := true, action := "settings_link_sent" })
  | .unknown | .edit_task =>
    let hasTitle : Bool :=
      match parsed.task with
      | none => false
      | some d => !d.title.data.isEmpty
    if parsed.confidence < AI_CONFIDENCE_THRESHOLD && hasTitle then
      let draft := (parsed.task).getD { title := "" }
      let created := createTask s
        { userId := user.id, title := draft.title, status := some .IDEA,
          source := some .WHATSAPP } now
      let s1 := created.1
      let task := created.2
      let s2 := match messageId with
        | some mid => sendReaction s1 user.whatsappNumber mid "💡"
        | none => s1
      let s3 := sendTextMessage s2 user.whatsappNumber
        ("💡 Noted as an idea: \"" ++ task.title ++
          "\"\n\nTip: Say \"remind me [time] to [task]\" for timed reminders!")
      (s3, .ok { success := true, action := "saved_as_idea", task := some task })
    else
      (sendHelpMessage s user, .ok { success := true, action := "help_sent" })

/-- The onboarding name-request command words. -/
def onboardingCommands : List (List Char) :=
  ["hi".data, "hello".data, "hey".data, "start".data, "help".data, "/start".data]

/-- `handleInboundMessage(from, text, deps, messageId)` with
`handleOnboarding` inlined.  The onboarding edge case (a named user not yet
marked onboarded) re-enters the handler, modelled by structural recursion on
a fuel; two units of fuel suffice because the re-entry happens after
`markUserOnboarded`. -/
def handleInboundMessageGo :
    Nat → SystemState → String → String → Int → Option String → Nat →
    SystemState × HandleMessageResult
  | 0, s, _, _, _, _, _ =>
    (s, { success := false, action := "error", error := some "fuel" })
  | Nat.succ fuel, s, phone, text, now, messageId, rand =>
    let gu := getOrCreateUserByWhatsApp s phone
    let s1 := gu.1
    let user := gu.2
    let s2 := updateLastInbound s1 user.id now
    let s3 := logMessageEvent s2 user.id "INBOUND"
    if user.isOnboarded = false then
      match user.name with
      | none =>
        let trimmedText := trimL text.data
        let lowerText := lowerL trimmedText
        let isCommand := onboardingCommands.any fun c => c = lowerText
        if isCommand || trimmedText.length < 2 then
          (sendTextMessage s3 user.whatsappNumber
              "👋 Hey there! I'm your personal reminder assistant.\n\nI'll help you remember everything that matters. Just tell me what to remind you about, and I'll make sure you never forget!\n\nFirst, what should I call you?",
            { success := true, action := "onboarding_welcome" })
        else
          let name := String.mk (trimmedText.takeWhile fun c => c ≠ ' ')
          let s4 := updateUserName s3 user.id name
          let s5 := markUserOnboarded s4 user.id
          let s6 := match messageId with
            | some mid => sendReaction s5 user.whatsappNumber mid "👍"
            | none => s5
          let s7 := sendTextMessage s6 user.whatsappNumber
            ("Nice to meet you, " ++ name ++
              "! 🎉\n\nI'm ready to be your reminder buddy. Here's how we'll work together:\n\n📝 Just text me things like:\n• \"Remind me to call mom at 3 PM\"\n• \"Meeting with team tomorrow 10 AM\"\n• \"Buy groceries at 6:30 PM\"\n\nI'll note it down and ping you right on time! ⏰\n\nGo ahead, try sending me your first reminder!")
          (s7, { success := true, action := "onboarding_complete" })
      | some _ =>
        let s4 := markUserOnboarded s3 user.id
        handleInboundMessageGo fuel s4 user.whatsappNumber text now messageId rand
    else
      let parsed := parseMessage text user.tzOffsetMin now
      match processIntent s3 user parsed now messageId rand with
      | (s4, .ok r) => (s4, r)
      | (s4, .error e) =>
        (s4, { success := false, action := "error", error := some ("Error: " ++ e) })

/-- The dispatcher's public entry point (fuel instantiated). -/
def handleInboundMessage (s : SystemState) (phone text : String) (now : Int)
    (messageId : Option String) (rand : Nat) : SystemState × HandleMessageResult :=
  handleInboundMessageGo 2 s phone text now messageId rand

/-! ## Reachable states and the one-SCHEDULED-reminder-per-task invariant

The operations below are exactly the state-mutating entry points of the
running system: the task routes and the chat dispatcher mutate reminders
only through the task service (`createTask`, `updateTask`, `moveTask`,
`markTaskDone`, `deleteTask`, `snoozeTask`), the delivery worker runs
`processReminder`, and the sweeper runs `runSweeperOnce`.
(`rescheduleReminder`, `cancelReminder` and `markReminderAcked` of the
reminder service have no caller anywhere in the repository.) -/

inductive Op
  | create (input : CreateTaskInput) (now : Int)
  | update (tid : String) (u : UpdateTaskInput) (now : Int)
  | move (tid : String) (st : TaskStatus) (now : Int)
  | markDone (tid : String) (now : Int)
  | delete (tid : String)
  | snooze (tid : String) (minutes : Int) (now : Int)
  | deliver (rid : String) (res : SendMessageResult) (now : Int)
  | sweep (now : Int)

/-- One system transition. -/
def step (s : SystemState) : Op → SystemState
  | .create i now => (createTask s i now).1
  | .update tid u now => (updateTask s tid u now).1
  | .move tid st now => (moveTask s tid st now).1
  | .markDone tid now => (markTaskDone s tid now).1
  | .delete tid => (deleteTask s tid).1
  | .snooze tid m now => (snoozeTask s tid m now).1
  | .deliver rid res now => (processReminder s rid res now).1
  | .sweep now => runSweeperOnce s now

/-- Run a trace of operations from a state. -/
def runOps (s : SystemState) (ops : List Op) : SystemState :=
  ops.foldl step s

/-- The initial state: some users, no tasks, reminders or jobs. -/
def initState (users : List User) : SystemState :=
  { users := users }

/-- The reminders of a task that sit in state SCHEDULED. -/
def schedForTask (s : SystemState) (tid : String) : List Reminder :=
  s.reminders.filter fun r =>
    decide (r.taskId = tid ∧ r.state = ReminderState.SCHEDULED)

/-- Cardinality of the task's SCHEDULED reminder set. -/
def schedCount (s : SystemState) (tid : String) : Nat :=
  (schedForTask s tid).length

/-- Every task row's id was produced by the id generator below the counter. -/
def TasksFresh (s : SystemState) : Prop :=
  ∀ t ∈ s.tasks, ∃ k, k < s.nextTaskId ∧ t.id = mkTaskId k

/-- Every reminder row references a task id below the task counter. -/
def TaskIdsFresh (s : SystemState) : Prop :=
  ∀ r ∈ s.reminders, ∃ k, k < s.nextTaskId ∧ r.taskId = mkTaskId k

/-- Every reminder row's id sits below the reminder counter. -/
def RemIdsFresh (s : SystemState) : Prop :=
  ∀ r ∈ s.reminders, ∃ k, k < s.nextReminderId ∧ r.id = mkReminderId k

/-- Reminder ids are pairwise distinct. -/
def RemIdsNodup (s : SystemState) : Prop :=
  (s.reminders.map (·.id)).Nodup

/-- The target invariant: at most one SCHEDULED reminder per task. -/
def AtMostOneScheduled (s : SystemState) : Prop :=
  ∀ tid, schedCount s tid ≤ 1

/-- The inductive well-formedness predicate. -/
def WF (s : SystemState) : Prop :=
  TasksFresh s ∧ TaskIdsFresh s ∧ RemIdsFresh s ∧ RemIdsNodup s ∧
    AtMostOneScheduled s

lemma mkTaskId_inj {a b : Nat} (h : mkTaskId a = mkTaskId b) : a = b := by
  have h2 : ('t' :: List.replicate a 'k') = ('t' :: List.replicate b 'k') :=
    congrArg String.data h
  have h3 := congrArg List.length h2
  simpa using h3

lemma mkReminderId_inj {a b : Nat} (h : mkReminderId a = mkReminderId b) :
    a = b := by
  have h2 : ('r' :: List.replicate a 'm') = ('r' :: List.replicate b 'm') :=
    congrArg String.data h
  have h3 := congrArg List.length h2
  simpa using h3

/-! Generic counting lemmas about mapped and appended row lists. -/

lemma filter_map_nil_of_false {α : Type} (g : α → α) (p : α → Bool)
    (l : List α) (h : ∀ x ∈ l, p (g x) = false) : (l.map g).filter p = [] := by
  induction l with
  | nil => simp
  | cons a t ih =>
    have ha := h a (by simp)
    simp only [List.map_cons, List.filter_cons, ha]
    exact ih fun x hx => h x (by simp [hx])

lemma length_filter_map_le {α : Type} (g : α → α) (p : α → Bool)
    (l : List α) (h : ∀ x ∈ l, p (g x) = true → p x = true) :
    ((l.map g).filter p).length ≤ (l.filter p).length := by
  induction l with
  | nil => simp
  | cons a t ih =>
    have iht := ih fun x hx hp => h x (by simp [hx]) hp
    simp only [List.map_cons, List.filter_cons]
    cases hga : p (g a) with
    | false =>
      cases hpa : p a with
      | false => simpa [hga, hpa] using iht
      | true => simp [hga, hpa]; omega
    | true =>
      have hpa := h a (by simp) hga
      simp [hga, hpa]
      omega

lemma length_filter_map_eq {α : Type} (g : α → α) (p : α → Bool)
    (l : List α) (h : ∀ x ∈ l, p (g x) = p x) :
    ((l.map g).filter p).length = (l.filter p).length := by
  induction l with
  | nil => simp
  | cons a t ih =>
    have iht := ih fun x hx => h x (by simp [hx])
    have ha := h a (by simp)
    simp only [List.map_cons, List.filter_cons, ha]
    cases hpa : p a with
    | false => simpa [hpa] using iht
    | true => simp [hpa, iht]

lemma filter_append_singleton {α : Type} (p : α → Bool) (l : List α) (x : α) :
    ((l ++ [x]).filter p).length =
      (l.filter p).length + (if p x then 1 else 0) := by
  cases hx : p x with
  | false => simp [List.filter_append, hx]
  | true => simp [List.filter_append, hx]

/-- `WF` depends only on tasks, reminders and the two id counters. -/
lemma wf_of_parts {s t : SystemState} (h : WF s)
    (ht : t.tasks = s.tasks) (hr : t.reminders = s.reminders)
    (hnt : t.nextTaskId = s.nextTaskId)
    (hnr : t.nextReminderId = s.nextReminderId) : WF t := by
  obtain ⟨h1, h2, h3, h4, h5⟩ := h
  refine ⟨?_, ?_, ?_, ?_, ?_⟩
  · intro x hx; rw [ht] at hx; rw [hnt]; exact h1 x hx
  · intro x hx; rw [hr] at hx; rw [hnt]; exact h2 x hx
  · intro x hx; rw [hr] at hx; rw [hnr]; exact h3 x hx
  · unfold RemIdsNodup; rw [hr]; exact h4
  · intro tid
    have h5t := h5 tid
    unfold schedCount schedForTask at h5t ⊢
    rw [hr]; exact h5t

/-- `schedCount` depends only on the reminder rows. -/
lemma schedCount_of_parts {s t : SystemState} (hr : t.reminders = s.reminders)
    (tid : String) : schedCount t tid = schedCount s tid := by
  unfold schedCount schedForTask; rw [hr]

/-- A task id not referenced by any reminder row has no SCHEDULED ones. -/
lemma schedCount_zero_of_ne (s : SystemState) (n : Nat)
    (h : ∀ r ∈ s.reminders, ∃ k, k ≠ n ∧ r.taskId = mkTaskId k) :
    schedCount s (mkTaskId n) = 0 := by
  unfold schedCount schedForTask
  rw [List.filter_eq_nil_iff.mpr]
  · rfl
  · intro r hr hpr
    obtain ⟨k, hk, hkid⟩ := h r hr
    rw [decide_eq_true_eq] at hpr
    exact hk (mkTaskId_inj (hkid ▸ hpr.1))

/-- After `cancelTaskReminders`, the task has no SCHEDULED reminders. -/
lemma schedCount_cancel_self (s : SystemState) (tid : String) :
    schedCount (cancelTaskReminders s tid) tid = 0 := by
  unfold schedCount schedForTask cancelTaskReminders
  simp only []
  rw [filter_map_nil_of_false]
  · rfl
  · intro r _
    by_cases hc : r.taskId = tid ∧ r.state = ReminderState.SCHEDULED
    · simp [hc]
    · simp [hc]

/-- `cancelTaskReminders` leaves the SCHEDULED count of other tasks alone. -/
lemma schedCount_cancel_other (s : SystemState) (tid tid2 : String)
    (h : tid2 ≠ tid) :
    schedCount (cancelTaskReminders s tid) tid2 = schedCount s tid2 := by
  unfold schedCount schedForTask cancelTaskReminders
  simp only []
  rw [length_filter_map_eq]
  intro r _
  by_cases hc : r.taskId = tid ∧ r.state = ReminderState.SCHEDULED
  · simp [hc, hc.1, Ne.symm h]
  · simp [hc]

/-- `cancelTaskReminders` preserves well-formedness. -/
lemma wf_cancelTaskReminders (s : SystemState) (tid : String) (h : WF s) :
    WF (cancelTaskReminders s tid) := by
  obtain ⟨h1, h2, h3, h4, h5⟩ := h
  refine ⟨?_, ?_, ?_, ?_, ?_⟩
  · intro t ht; exact h1 t ht
  · intro r hr
    unfold cancelTaskReminders at hr
    simp only [List.mem_map] at hr
    obtain ⟨x, hx, hxr⟩ := hr
    obtain ⟨k, hk, hkid⟩ := h2 x hx
    refine ⟨k, hk, ?_⟩
    subst hxr
    by_cases hc : x.taskId = tid ∧ x.state = ReminderState.SCHEDULED
    · rw [if_pos hc]; exact hkid
    · rw [if_neg hc]; exact hkid
  · intro r hr
    unfold cancelTaskReminders at hr
    simp only [List.mem_map] at hr
    obtain ⟨x, hx, hxr⟩ := hr
    obtain ⟨k, hk, hkid⟩ := h3 x hx
    refine ⟨k, hk, ?_⟩
    subst hxr
    by_cases hc : x.taskId = tid ∧ x.state = ReminderState.SCHEDULED
    · rw [if_pos hc]; exact hkid
    · rw [if_neg hc]; exact hkid
  · unfold RemIdsNodup cancelTaskReminders
    simp only [List.map_map]
    have : ((fun r => r.id) ∘ fun r =>
        if r.taskId = tid ∧ r.state = ReminderState.SCHEDULED then
          { r with state := ReminderState.CANCELED } else r) =
        fun (r : Reminder) => r.id := by
      funext r
      by_cases hc : r.taskId = tid ∧ r.state = ReminderState.SCHEDULED
      · simp [hc]
      · simp [hc]
    rw [this]
    exact h4
  · intro tid2
    by_cases he : tid2 = tid
    · subst he; rw [schedCount_cancel_self]; omega
    · rw [schedCount_cancel_other s tid tid2 he]; exact h5 tid2

/-- Appending a fresh SCHEDULED reminder for a task that currently has none
preserves well-formedness. -/
lemma wf_append_sched {s t : SystemState} (r0 : Reminder) (h : WF s)
    (ht : t.tasks = s.tasks) (hr : t.reminders = s.reminders ++ [r0])
    (hnt : t.nextTaskId = s.nextTaskId)
    (hnr : t.nextReminderId = s.nextReminderId + 1)
    (hid : r0.id = mkReminderId s.nextReminderId)
    (htask : ∃ k, k < s.nextTaskId ∧ r0.taskId = mkTaskId k)
    (hzero : schedCount s r0.taskId = 0) : WF t := by
  obtain ⟨h1, h2, h3, h4, h5⟩ := h
  refine ⟨?_, ?_, ?_, ?_, ?_⟩
  · intro x hx; rw [ht] at hx; rw [hnt]; exact h1 x hx
  · intro x hx
    rw [hr, List.mem_append] at hx
    rw [hnt]
    cases hx with
    | inl hin => exact h2 x hin
    | inr hone =>
      simp only [List.mem_singleton] at hone
      subst hone
      exact htask
  · intro x hx
    rw [hr, List.mem_append] at hx
    rw [hnr]
    cases hx with
    | inl hin =>
      obtain ⟨k, hk, hkid⟩ := h3 x hin
      exact ⟨k, by omega, hkid⟩
    | inr hone =>
      simp only [List.mem_singleton] at hone
      subst hone
      exact ⟨s.nextReminderId, by omega, hid⟩
  · unfold RemIdsNodup
    rw [hr]
    simp only [List.map_append, List.map_cons, List.map_nil]
    rw [List.nodup_append]
    refine ⟨h4, List.nodup_singleton _, ?_⟩
    intro a ha hb
    simp only [List.mem_singleton] at hb
    subst hb
    simp only [List.mem_map] at ha
    obtain ⟨x, hx, hxa⟩ := ha
    obtain ⟨k, hk, hkid⟩ := h3 x hx
    have : k = s.nextReminderId := mkReminderId_inj (by rw [← hkid, hxa, hid])
    omega
  · intro tid
    unfold schedCount schedForTask
    rw [hr, filter_append_singleton]
    by_cases hteq : r0.taskId = tid
    · subst hteq
      have := hzero
      unfold schedCount schedForTask at this
      rw [this]
      split <;> omega
    · have hz : decide (r0.taskId = tid ∧ r0.state = ReminderState.SCHEDULED)
          = false := by
        simp [hteq]
      rw [hz]
      have := h5 tid
      unfold schedCount schedForTask at this
      simpa using this

/-- Replacing the task row with id `tid` by a row with the same id preserves
well-formedness (the reminder rows are untouched). -/
lemma wf_tasks_map {s t : SystemState} (tid : String) (tk : Task) (h : WF s)
    (ht : t.tasks = s.tasks.map fun x => if x.id = tid then tk else x)
    (hr : t.reminders = s.reminders)
    (hnt : t.nextTaskId = s.nextTaskId)
    (hnr : t.nextReminderId = s.nextReminderId)
    (htid : ∃ k, k < s.nextTaskId ∧ tk.id = mkTaskId k) : WF t := by
  obtain ⟨h1, h2, h3, h4, h5⟩ := h
  refine ⟨?_, ?_, ?_, ?_, ?_⟩
  · intro x hx
    rw [ht] at hx
    simp only [List.mem_map] at hx
    obtain ⟨y, hy, hyx⟩ := hx
    rw [hnt]
    by_cases hc : y.id = tid
    · rw [if_pos hc] at hyx; subst hyx; exact htid
    · rw [if_neg hc] at hyx; subst hyx; exact h1 y hy
  · intro x hx; rw [hr] at hx; rw [hnt]; exact h2 x hx
  · intro x hx; rw [hr] at hx; rw [hnr]; exact h3 x hx
  · unfold RemIdsNodup; rw [hr]; exact h4
  · intro tid2
    have h5t := h5 tid2
    unfold schedCount schedForTask at h5t ⊢
    rw [hr]; exact h5t

/-- Two reminder rows with equal ids in a nodup-id list are equal. -/
lemma reminder_eq_of_id {s : SystemState} (h : RemIdsNodup s) {a b : Reminder}
    (ha : a ∈ s.reminders) (hb : b ∈ s.reminders) (hid : a.id = b.id) :
    a = b :=
  List.inj_on_of_nodup_map h ha hb hid

/-- A Prisma-style update keyed by reminder id preserves well-formedness as
long as the transform keeps id and task id, and does not move a member into
SCHEDULED that was not already SCHEDULED. -/
lemma wf_applyRem {s t : SystemState} (rid : String) (g : Reminder → Reminder)
    (h : WF s)
    (ht : t.tasks = s.tasks)
    (hr : t.reminders = s.reminders.map fun r => if r.id = rid then g r else r)
    (hnt : t.nextTaskId = s.nextTaskId)
    (hnr : t.nextReminderId = s.nextReminderId)
    (hg_id : ∀ r, (g r).id = r.id)
    (hg_tid : ∀ r, (g r).taskId = r.taskId)
    (hg_st : ∀ r ∈ s.reminders, r.id = rid →
      (g r).state = ReminderState.SCHEDULED → r.state = ReminderState.SCHEDULED) :
    WF t := by
  obtain ⟨h1, h2, h3, h4, h5⟩ := h
  refine ⟨?_, ?_, ?_, ?_, ?_⟩
  · intro x hx; rw [ht] at hx; rw [hnt]; exact h1 x hx
  · intro x hx
    rw [hr] at hx
    simp only [List.mem_map] at hx
    obtain ⟨y, hy, hyx⟩ := hx
    obtain ⟨k, hk, hkid⟩ := h2 y hy
    refine ⟨k, hnt ▸ hk, ?_⟩
    subst hyx
    by_cases hc : y.id = rid
    · rw [if_pos hc, hg_tid]; exact hkid
    · rw [if_neg hc]; exact hkid
  · intro x hx
    rw [hr] at hx
    simp only [List.mem_map] at hx
    obtain ⟨y, hy, hyx⟩ := hx
    obtain ⟨k, hk, hkid⟩ := h3 y hy
    refine ⟨k, hnr ▸ hk, ?_⟩
    subst hyx
    by_cases hc : y.id = rid
    · rw [if_pos hc, hg_id]; exact hkid
    · rw [if_neg hc]; exact hkid
  · unfold RemIdsNodup
    rw [hr]
    simp only [List.map_map]
    have heq : ((fun r => r.id) ∘ fun r => if r.id = rid then g r else r) =
        fun (r : Reminder) => r.id := by
      funext r
      by_cases hc : r.id = rid
      · simp [hc, hg_id]
      · simp [hc]
    rw [heq]
    exact h4
  · intro tid
    have h5t := h5 tid
    unfold schedCount schedForTask at h5t ⊢
    rw [hr]
    refine le_trans (length_filter_map_le _ _ _ ?_) h5t
    intro x hx hpx
    rw [decide_eq_true_eq] at hpx ⊢
    by_cases hc : x.id = rid
    · rw [if_pos hc] at hpx
      exact ⟨(hg_tid x) ▸ hpx.1, hg_st x hx hc hpx.2⟩
    · rw [if_neg hc] at hpx
      exact hpx

/-- `scheduleReminder` preserves well-formedness when the task id is a
generated one and the task currently has no SCHEDULED reminder. -/
lemma wf_scheduleReminder (s : SystemState) (task : Task) (now : Int)
    (h : WF s) (htask : ∃ k, k < s.nextTaskId ∧ task.id = mkTaskId k)
    (hzero : schedCount s task.id = 0) : WF (scheduleReminder s task now) := by
  unfold scheduleReminder
  cases hra : task.reminderAt with
  | none => exact h
  | some tm =>
    simp only []
    exact wf_append_sched _ h rfl rfl rfl rfl rfl htask hzero

/-- Appending a task row whose id is the current counter value preserves
well-formedness (the task counter is bumped). -/
lemma wf_append_task (s : SystemState) (tk : Task) (h : WF s)
    (hid : tk.id = mkTaskId s.nextTaskId) :
    WF { s with tasks := s.tasks ++ [tk], nextTaskId := s.nextTaskId + 1 } := by
  obtain ⟨h1, h2, h3, h4, h5⟩ := h
  refine ⟨?_, ?_, h3, h4, h5⟩
  · intro x hx
    simp only [List.mem_append, List.mem_singleton] at hx
    cases hx with
    | inl hin =>
      obtain ⟨k, hk, hkid⟩ := h1 x hin
      exact ⟨k, by show k < s.nextTaskId + 1; omega, hkid⟩
    | inr hone =>
      exact ⟨s.nextTaskId, by show s.nextTaskId < s.nextTaskId + 1; omega,
        by rw [hone]; exact hid⟩
  · intro x hx
    obtain ⟨k, hk, hkid⟩ := h2 x hx
    exact ⟨k, by show k < s.nextTaskId + 1; omega, hkid⟩

/-- `createTask` preserves well-formedness. -/
lemma wf_createTask (s : SystemState) (i : CreateTaskInput) (now : Int)
    (h : WF s) : WF (createTask s i now).1 := by
  have key := wf_append_task s
    { id := mkTaskId s.nextTaskId, userId := i.userId,
      title := i.title, notes := i.notes, status := i.status.getD .TODO,
      dueAt := i.dueAt, reminderAt := i.reminderAt,
      source := i.source.getD .WEB } h rfl
  unfold createTask
  simp only []
  split
  · refine wf_scheduleReminder _ _ now key
      ⟨s.nextTaskId, by show s.nextTaskId < s.nextTaskId + 1; omega, rfl⟩
      (schedCount_zero_of_ne _ s.nextTaskId ?_)
    intro r hr
    obtain ⟨k, hk, hkid⟩ := h.2.1 r hr
    exact ⟨k, by omega, hkid⟩
  · exact key

/-- `updateTask` preserves well-formedness. -/
lemma wf_updateTask (s : SystemState) (tid : String) (u : UpdateTaskInput)
    (now : Int) (h : WF s) : WF (updateTask s tid u now).1 := by
  unfold updateTask
  cases hft : findTask s tid with
  | none => exact h
  | some t0 =>
    simp only []
    have ht0mem : t0 ∈ s.tasks := List.mem_of_find?_eq_some hft
    have ht0id : t0.id = tid := by
      have := List.find?_some hft
      simpa using this
    obtain ⟨k0, hk0, hk0id⟩ := h.1 t0 ht0mem
    have hs1 : WF { s with
        tasks := s.tasks.map fun x => if x.id = tid then applyTaskUpdate t0 u else x } :=
      wf_tasks_map tid (applyTaskUpdate t0 u) h rfl rfl rfl rfl ⟨k0, hk0, hk0id⟩
    split
    · split
      · refine wf_scheduleReminder _ _ now (wf_cancelTaskReminders _ tid hs1)
          ⟨k0, hk0, hk0id⟩ ?_
        have : (applyTaskUpdate t0 u).id = tid := ht0id
        rw [this]
        exact schedCount_cancel_self _ tid
      · exact wf_cancelTaskReminders _ tid hs1
    · exact hs1

/-- `moveTask` preserves well-formedness. -/
lemma wf_moveTask (s : SystemState) (tid : String) (st : TaskStatus)
    (now : Int) (h : WF s) : WF (moveTask s tid st now).1 := by
  unfold moveTask
  have hupd := wf_updateTask s tid { status := some st } now h
  cases hm : updateTask s tid { status := some st } now with
  | mk s1 r =>
    rw [hm] at hupd
    cases r with
    | error e => exact hupd
    | ok t =>
      simp only []
      split
      · exact wf_cancelTaskReminders _ tid hupd
      · exact hupd

/-- `markTaskDone` preserves well-formedness. -/
lemma wf_markTaskDone (s : SystemState) (tid : String) (now : Int)
    (h : WF s) : WF (markTaskDone s tid now).1 :=
  wf_moveTask s tid .DONE now h

/-- `deleteTask` preserves well-formedness. -/
lemma wf_deleteTask (s : SystemState) (tid : String) (h : WF s) :
    WF (deleteTask s tid).1 := by
  simp only [deleteTask]
  have hc := wf_cancelTaskReminders s tid h
  cases hft : findTask (cancelTaskReminders s tid) tid with
  | none => exact hc
  | some t0 =>
    simp only []
    obtain ⟨h1, h2, h3, h4, h5⟩ := hc
    refine ⟨?_, h2, h3, h4, h5⟩
    intro x hx
    exact h1 x (List.mem_of_mem_filter hx)

/-- `snoozeTask` preserves well-formedness. -/
lemma wf_snoozeTask (s : SystemState) (tid : String) (minutes : Int)
    (now : Int) (h : WF s) : WF (snoozeTask s tid minutes now).1 := by
  simp only [snoozeTask]
  have hc := wf_cancelTaskReminders s tid h
  cases hft : findTask (cancelTaskReminders s tid) tid with
  | none => exact hc
  | some t0 =>
    simp only []
    have ht0mem : t0 ∈ (cancelTaskReminders s tid).tasks :=
      List.mem_of_find?_eq_some hft
    have ht0id : t0.id = tid := by
      have := List.find?_some hft
      simpa using this
    obtain ⟨k0, hk0, hk0id⟩ := hc.1 t0 ht0mem
    have hs2 : WF { cancelTaskReminders s tid with
        tasks := (cancelTaskReminders s tid).tasks.map fun x =>
          if x.id = tid then { t0 with reminderAt := some (now + minutes * MS_PER_MINUTE) } else x } :=
      wf_tasks_map tid _ hc rfl rfl rfl rfl ⟨k0, hk0, hk0id⟩
    refine wf_append_sched
      ({ id := mkReminderId (cancelTaskReminders s tid).nextReminderId,
         taskId := tid, userId := t0.userId,
         scheduledAt := now + minutes * MS_PER_MINUTE,
         state := .SCHEDULED } : Reminder)
      hs2 rfl rfl rfl rfl rfl ⟨k0, hk0, ht0id ▸ hk0id⟩ ?_
    show schedCount _ tid = 0
    unfold schedCount schedForTask
    have := schedCount_cancel_self s tid
    unfold schedCount schedForTask at this
    exact this

/-- Setting a reminder's state to a non-SCHEDULED value (with no further
updates) preserves well-formedness. -/
lemma wf_updateReminderState_simple (s : SystemState) (rid : String)
    (st : ReminderState) (hne : st ≠ ReminderState.SCHEDULED) (h : WF s) :
    WF (updateReminderState s rid st none none none) := by
  unfold updateReminderState
  refine wf_applyRem rid _ h rfl rfl rfl rfl (fun x => rfl) (fun x => rfl) ?_
  intro x hx hxid hcon
  simp only [] at hcon
  exact absurd hcon hne

/-- Recording a send failure (back to SCHEDULED with an error and a retry
increment) preserves well-formedness when every row with this id was
already SCHEDULED. -/
lemma wf_recordFailure (s : SystemState) (rid : String) (err : String)
    (h : WF s)
    (hsched : ∀ x ∈ s.reminders, x.id = rid → x.state = ReminderState.SCHEDULED) :
    WF (updateReminderState s rid .SCHEDULED none none (some err)) := by
  unfold updateReminderState
  refine wf_applyRem rid _ h rfl rfl rfl rfl (fun x => rfl) (fun x => rfl) ?_
  intro x hx hxid _
  exact hsched x hx hxid

/-- `markReminderFailed` preserves well-formedness. -/
lemma wf_markReminderFailed (s : SystemState) (rid err : String) (h : WF s) :
    WF (markReminderFailed s rid err) := by
  unfold markReminderFailed
  refine wf_applyRem rid _ h rfl rfl rfl rfl (fun x => rfl) (fun x => rfl) ?_
  intro x hx hxid hcon
  simp only [] at hcon
  cases hcon

/-- `markReminderSent` preserves well-formedness. -/
lemma wf_markReminderSent (s : SystemState) (rid : String)
    (messageId : Option String) (deliveryMode : Option DeliveryMode)
    (now : Int) (h : WF s) :
    WF (markReminderSent s rid messageId deliveryMode now) := by
  unfold markReminderSent
  refine wf_applyRem rid _ h rfl rfl rfl rfl (fun x => rfl) (fun x => rfl) ?_
  intro x hx hxid hcon
  simp only [] at hcon
  cases hcon

/-- The delivery worker preserves well-formedness. -/
lemma wf_processReminder (s : SystemState) (rid : String)
    (res : SendMessageResult) (now : Int) (h : WF s) :
    WF (processReminder s rid res now).1 := by
  simp only [processReminder]
  cases hfr : findReminder s rid with
  | none => exact h
  | some r =>
    simp only []
    have hrmem : r ∈ s.reminders := List.mem_of_find?_eq_some hfr
    have hrid : r.id = rid := by simpa using List.find?_some hfr
    by_cases hst : r.state ≠ ReminderState.SCHEDULED
    · rw [if_pos hst]; exact h
    · rw [if_neg hst]
      push_neg at hst
      have huniq : ∀ x ∈ s.reminders, x.id = rid →
          x.state = ReminderState.SCHEDULED := by
        intro x hx hxid
        have hxr : x = r :=
          reminder_eq_of_id h.2.2.2.1 hx hrmem (by rw [hxid, hrid])
        rw [hxr]; exact hst
      cases hft : findTask s r.taskId with
      | none =>
        exact wf_updateReminderState_simple s rid .CANCELED (by simp) h
      | some task =>
        simp only []
        split
        · exact wf_updateReminderState_simple s rid .CANCELED (by simp) h
        · split
          · exact wf_markReminderFailed s rid "Max retries exceeded" h
          · cases hfu : findUser s r.userId with
            | none => exact wf_recordFailure s rid _ h huniq
            | some u =>
              simp only []
              split
              · have hs1 : WF { s with outbox :=
                    s.outbox ++ [(sendReminderMessage u task now).1] } :=
                  wf_of_parts h rfl rfl rfl rfl
                have hs2 := wf_markReminderSent _ rid res.messageId
                  (some (sendReminderMessage u task now).2) now hs1
                exact wf_of_parts hs2 rfl rfl rfl rfl
              · have hs1 : WF { s with outbox :=
                    s.outbox ++ [(sendReminderMessage u task now).1] } :=
                  wf_of_parts h rfl rfl rfl rfl
                refine wf_recordFailure _ rid _ hs1 ?_
                intro x hx hxid
                exact huniq x hx hxid

/-- The sweeper's fold only touches the job queue. -/
lemma sweep_foldl_parts (now : Int) (l : List Reminder) (acc : SystemState) :
    (l.foldl (fun a r =>
      { a with jobs := scheduleReminderJob a.jobs r.id r.taskId r.userId now now })
      acc).tasks = acc.tasks ∧
    (l.foldl (fun a r =>
      { a with jobs := scheduleReminderJob a.jobs r.id r.taskId r.userId now now })
      acc).reminders = acc.reminders ∧
    (l.foldl (fun a r =>
      { a with jobs := scheduleReminderJob a.jobs r.id r.taskId r.userId now now })
      acc).nextTaskId = acc.nextTaskId ∧
    (l.foldl (fun a r =>
      { a with jobs := scheduleReminderJob a.jobs r.id r.taskId r.userId now now })
      acc).nextReminderId = acc.nextReminderId := by
  induction l generalizing acc with
  | nil => exact ⟨rfl, rfl, rfl, rfl⟩
  | cons a t ih => exact ih _

/-- The sweeper preserves well-formedness. -/
lemma wf_runSweeperOnce (s : SystemState) (now : Int) (h : WF s) :
    WF (runSweeperOnce s now) := by
  unfold runSweeperOnce
  obtain ⟨h1, h2, h3, h4⟩ := sweep_foldl_parts now (getStuckReminders s now) s
  exact wf_of_parts h h1 h2 h3 h4

/-- Every system transition preserves well-formedness. -/
lemma wf_step (s : SystemState) (op : Op) (h : WF s) : WF (step s op) := by
  cases op with
  | create i now => exact wf_createTask s i now h
  | update tid u now => exact wf_updateTask s tid u now h
  | move tid st now => exact wf_moveTask s tid st now h
  | markDone tid now => exact wf_markTaskDone s tid now h
  | delete tid => exact wf_deleteTask s tid h
  | snooze tid m now => exact wf_snoozeTask s tid m now h
  | deliver rid res now => exact wf_processReminder s rid res now h
  | sweep now => exact wf_runSweeperOnce s now h

/-- The initial state is well-formed. -/
lemma wf_initState (users : List User) : WF (initState users) := by
  refine ⟨?_, ?_, ?_, ?_, ?_⟩
  · intro t ht; cases ht
  · intro r hr; cases hr
  · intro r hr; cases hr
  · exact List.nodup_nil
  · intro tid
    show ((([] : List Reminder).filter _).length) ≤ 1
    simp

/-- Well-formedness along any trace. -/
lemma wf_runOps (users : List User) (ops : List Op) :
    WF (runOps (initState users) ops) := by
  suffices hgen : ∀ (l : List Op) (s : SystemState), WF s → WF (runOps s l) from
    hgen ops (initState users) (wf_initState users)
  intro l
  induction l with
  | nil => intro s hs; exact hs
  | cons op t ih =>
    intro s hs
    exact ih (step s op) (wf_step s op hs)

/-! ## Further helper lemmas for the claim theorems -/

/-- An id-keyed row update commutes with the id lookup. -/
lemma find?_map_upd (l : List Reminder) (rid : String) (g : Reminder → Reminder)
    (hg : ∀ x, (g x).id = x.id) :
    ((l.map fun r => if r.id = rid then g r else r).find? fun r => r.id = rid) =
      ((l.find? fun r => r.id = rid).map g) := by
  induction l with
  | nil => rfl
  | cons a t ih =>
    by_cases hc : a.id = rid
    · rw [List.map_cons, if_pos hc]
      rw [List.find?_cons_of_pos _ (by simp [hg, hc]),
        List.find?_cons_of_pos _ (by simp [hc])]
      rfl
    · rw [List.map_cons, if_neg hc]
      rw [List.find?_cons_of_neg _ (by simp [hc]),
        List.find?_cons_of_neg _ (by simp [hc])]
      exact ih

/-- `findReminder` after an id-keyed update. -/
lemma findReminder_applyRem (s : SystemState) (rid : String)
    (g : Reminder → Reminder) (hg : ∀ x, (g x).id = x.id) :
    findReminder (applyReminderUpdate s rid g) rid =
      (findReminder s rid).map g := by
  unfold findReminder applyReminderUpdate
  exact find?_map_upd s.reminders rid g hg

/-- A stuck reminder is a SCHEDULED row more than five minutes past due. -/
lemma mem_getStuckReminders {s : SystemState} {now : Int} {x : Reminder}
    (hx : x ∈ getStuckReminders s now) :
    x ∈ s.reminders ∧ x.state = ReminderState.SCHEDULED ∧
      x.scheduledAt ≤ now - 5 * MS_PER_MINUTE := by
  unfold getStuckReminders at hx
  have hx2 := List.take_subset _ _ hx
  rw [List.mem_filter] at hx2
  obtain ⟨hmem, hp⟩ := hx2
  rw [Bool.and_eq_true, decide_eq_true_eq, decide_eq_true_eq] at hp
  exact ⟨hmem, hp.2, hp.1⟩

/-- Jobs present after the sweeper's fold were either already queued or were
enqueued for one of the folded reminders. -/
lemma foldl_jobs_sub (now : Int) (l : List Reminder) (acc : SystemState) :
    ∀ j ∈ (l.foldl (fun a r =>
        { a with jobs := scheduleReminderJob a.jobs r.id r.taskId r.userId now now })
      acc).jobs, j ∈ acc.jobs ∨ ∃ x ∈ l, j.reminderId = x.id := by
  induction l generalizing acc with
  | nil => intro j hj; exact Or.inl hj
  | cons a t ih =>
    intro j hj
    rcases ih _ j hj with hin | ⟨x, hx, hxid⟩
    · have hin2 : j ∈ scheduleReminderJob acc.jobs a.id a.taskId a.userId now now :=
        hin
      unfold scheduleReminderJob at hin2
      by_cases hk : jobKeyExists acc.jobs a.id = true
      · rw [if_pos hk] at hin2
        exact Or.inl hin2
      · rw [if_neg hk] at hin2
        rw [List.mem_append] at hin2
        cases hin2 with
        | inl h2 => exact Or.inl h2
        | inr h2 =>
          simp only [List.mem_singleton] at h2
          subst h2
          exact Or.inr ⟨a, List.mem_cons_self a t, rfl⟩
    · exact Or.inr ⟨x, List.mem_cons_of_mem _ hx, hxid⟩

/-- Every job the sweeper's pass adds belongs to a SCHEDULED reminder. -/
lemma sweeper_jobs_from_scheduled (s : SystemState) (now : Int) :
    ∀ j ∈ (runSweeperOnce s now).jobs,
      j ∈ s.jobs ∨ ∃ x ∈ s.reminders,
        x.state = ReminderState.SCHEDULED ∧ j.reminderId = x.id := by
  intro j hj
  unfold runSweeperOnce at hj
  rcases foldl_jobs_sub now (getStuckReminders s now) s j hj with hin | ⟨x, hx, hxid⟩
  · exact Or.inl hin
  · obtain ⟨hmem, hsched, _⟩ := mem_getStuckReminders hx
    exact Or.inr ⟨x, hmem, hsched, hxid⟩

/-- `findNumWith` finds nothing in a digit-free text. -/
lemma findNumWith_none (check : List Char → Bool) (l : List Char)
    (h : ∀ c ∈ l, c.isDigit = false) : findNumWith check l = none := by
  induction l with
  | nil => rfl
  | cons c cs ih =>
    unfold findNumWith
    rw [if_neg (by simp [h c (List.mem_cons_self c cs)])]
    exact ih fun x hx => h x (List.mem_cons_of_mem _ hx)

/-- Equality of embedded fallible results is decidable. -/
instance exceptDecEq {α β : Type} [DecidableEq α] [DecidableEq β] :
    DecidableEq (Except α β)
  | Except.error a, Except.error b =>
    if h : a = b then isTrue (by rw [h])
    else isFalse (by intro hc; cases hc; exact h rfl)
  | Except.error _, Except.ok _ => isFalse (by intro hc; cases hc)
  | Except.ok _, Except.error _ => isFalse (by intro hc; cases hc)
  | Except.ok a, Except.ok b =>
    if h : a = b then isTrue (by rw [h])
    else isFalse (by intro hc; cases hc; exact h rfl)

/-! ## Concrete fixtures used by witnesses and counterexamples -/

/-- An onboarded user in `Asia/Kolkata` with a recent inbound message. -/
def userFix : User :=
  { id := "u1", whatsappNumber := "+919999999999", name := some "Asha",
    tzOffsetMin := 330, lastInboundAt := some 0, isOnboarded := true }

/-- A TODO task with a reminder time. -/
def taskFix : Task :=
  { id := "t1", userId := "u1", title := "send the deck", status := .TODO,
    reminderAt := some 5000 }

/-- The task's SCHEDULED reminder row. -/
def remFix : Reminder :=
  { id := "r1", taskId := "t1", userId := "u1", scheduledAt := 5000,
    state := .SCHEDULED }

/-- A full small system state: one user, one task, one SCHEDULED reminder
with its pending queue job. -/
def sFix : SystemState :=
  { users := [userFix], tasks := [taskFix], reminders := [remFix],
    jobs := [{ reminderId := "r1", taskId := "t1", userId := "u1", runAt := 5000 }] }

/-- A successful transport result. -/
def resOk : SendMessageResult := { success := true, messageId := some "m1" }

/-- A failed transport result. -/
def resFail : SendMessageResult := { success := false, error := some "timeout" }

/-! ## Claim theorems -/

/-- C1: in every state reachable from an initial state through the system's
operations (task creation/update/move/completion/deletion, snooze, the
delivery worker, the sweeper), every task has at most one reminder in state
SCHEDULED: each operation that creates or re-activates a reminder first
cancels the task's prior SCHEDULED reminders. -/
theorem c1_at_most_one_scheduled_reminder_per_task
    (users : List User) (ops : List Op) (tid : String) :
    schedCount (runOps (initState users) ops) tid ≤ 1 :=
  (wf_runOps users ops).2.2.2.2 tid

/-- C2: the delivery handler is idempotent with respect to reminder state:
once a first invocation has left the reminder in state SENT, a second
invocation on the same reminder id returns the state unchanged (no outbound
message, no row update) and completes without error, because every attempt
re-checks that the reminder exists and is still SCHEDULED. -/
theorem c2_delivery_idempotent (s : SystemState) (rid : String)
    (res1 res2 : SendMessageResult) (now1 now2 : Int)
    (h : (findReminder (processReminder s rid res1 now1).1 rid).map
        Reminder.state = some ReminderState.SENT) :
    processReminder (processReminder s rid res1 now1).1 rid res2 now2 =
      ((processReminder s rid res1 now1).1, WorkerOutcome.completed) := by
  generalize hgen : (processReminder s rid res1 now1).1 = s1 at h ⊢
  cases hfr : findReminder s1 rid with
  | none => rw [hfr] at h; cases h
  | some r =>
    rw [hfr] at h
    have hst : r.state = ReminderState.SENT := by
      simpa using h
    simp only [processReminder, hfr]
    rw [if_pos (show r.state ≠ ReminderState.SCHEDULED by rw [hst]; simp)]

/-- Witness for C2 at the concrete fixture state. -/
theorem c2_delivery_idempotent_witness :
    processReminder (processReminder sFix "r1" resOk 5000).1 "r1" resOk 6000 =
      ((processReminder sFix "r1" resOk 5000).1, WorkerOutcome.completed) :=
  c2_delivery_idempotent sFix "r1" resOk resOk 5000 6000 (by decide)

/-- C5 counterexample: `parse("remind me tomorrow to send the deck")` with
timezone `Asia/Kolkata` and reference time 2024-01-15T10:00+05:30
(epoch 1705293000000 ms) produces NO `reminderAt` at all — "tomorrow"
carries no certain clock hour, so the resolver reports no time found —
contradicting the claimed next-day `reminderAt`. -/
theorem c5_counterexample :
    ((parseMessage "remind me tomorrow to send the deck" 330
        1705293000000).task.bind (fun d => d.reminderAt)) = none := by
  decide

/-- C5 (amended): the parse returns intent `create_task`, status TODO and a
title containing "send the deck", but no `reminderAt`: the rule parser
reports no time found for a bare "tomorrow" (a default time is only ever
added by a separate explicit policy, which the rule pipeline does not
invoke). -/
theorem c5_amended_parse_tomorrow :
    (parseMessage "remind me tomorrow to send the deck" 330
        1705293000000).intent = Intent.create_task ∧
    ((parseMessage "remind me tomorrow to send the deck" 330
        1705293000000).task.map (fun d => d.status)) = some (some .TODO) ∧
    ((parseMessage "remind me tomorrow to send the deck" 330
        1705293000000).task.map
      (fun d => containsL "send the deck".data d.title.data)) = some true ∧
    ((parseMessage "remind me tomorrow to send the deck" 330
        1705293000000).task.map (fun d => d.reminderAt)) = some none := by
  decide

/-- C6: snooze duration parsing from message text (`parseSnoozeRequest`):
"snooze 2h" gives 120 minutes, "snooze 30 minutes" gives 30,
"snooze tomorrow" gives the sentinel −1, and any digit-free text without
"tomorrow" falls back to the default 15. -/
theorem c6_snooze_duration_parsing :
    parseSnoozeRequest "snooze 2h" = 120 ∧
    parseSnoozeRequest "snooze 30 minutes" = 30 ∧
    parseSnoozeRequest "snooze tomorrow" = -1 ∧
    (∀ text : String, (∀ c ∈ lowerL text.data, c.isDigit = false) →
      containsL "tomorrow".data (lowerL text.data) = false →
      parseSnoozeRequest text = 15) := by
  refine ⟨by decide, by decide, by decide, ?_⟩
  intro text hd ht
  simp only [parseSnoozeRequest]
  rw [ht]
  rw [findNumWith_none _ _ hd, findNumWith_none _ _ hd, findNumWith_none _ _ hd]
  simp

/-- Witness for C6's universally quantified default case. -/
theorem c6_snooze_duration_parsing_witness :
    parseSnoozeRequest "snooze please" = 15 :=
  c6_snooze_duration_parsing.2.2.2 "snooze please" (by decide) (by decide)

/-- `findReminder` only depends on the reminder rows. -/
lemma findReminder_of_parts {s t : SystemState}
    (hr : t.reminders = s.reminders) (rid : String) :
    findReminder t rid = findReminder s rid := by
  unfold findReminder; rw [hr]

/-- `findReminder` after recording a send failure. -/
lemma findReminder_recordFailure (s : SystemState) (rid err : String) :
    findReminder (updateReminderState s rid .SCHEDULED none none (some err)) rid =
      (findReminder s rid).map fun r =>
        { r with state := ReminderState.SCHEDULED, lastError := some err,
                 retriesCount := r.retriesCount + 1 } := by
  unfold updateReminderState
  exact findReminder_applyRem _ _ _ fun x => rfl

/-- `findReminder` after `markReminderFailed`. -/
lemma findReminder_markReminderFailed (s : SystemState) (rid err : String) :
    findReminder (markReminderFailed s rid err) rid =
      (findReminder s rid).map fun r =>
        { r with state := ReminderState.FAILED, lastError := some err,
                 retriesCount := r.retriesCount + 1 } := by
  unfold markReminderFailed
  exact findReminder_applyRem _ _ _ fun x => rfl

/-- `findReminder` after `markReminderSent`. -/
lemma findReminder_markReminderSent (s : SystemState) (rid : String)
    (messageId : Option String) (deliveryMode : Option DeliveryMode) (now : Int) :
    findReminder (markReminderSent s rid messageId deliveryMode now) rid =
      (findReminder s rid).map fun r =>
        { r with state := ReminderState.SENT, sentAt := some now,
                 messageId := (match messageId with
                   | some m => some m
                   | none => r.messageId),
                 deliveryMode := (match deliveryMode with
                   | some m => some m
                   | none => r.deliveryMode) } := by
  unfold markReminderSent
  exact findReminder_applyRem _ _ _ fun x => rfl

/-- C3: delivery-mode decision at fire time.  A last inbound message 23
hours old is within the 24-hour session window, one 25 hours old (or a
missing one) is not; within the window the engine sends the interactive
free-form message with done/snooze/edit buttons and mode SESSION_FREEFORM,
otherwise the pre-approved template message carrying the truncated task
title and mode TEMPLATE; on send success the worker records the returned
`deliveryMode` on the reminder row. -/
theorem c3_delivery_mode_decision (u : User) (task : Task) (now : Int) :
    isWithinSessionWindow (some (now - 23 * MS_PER_HOUR)) now = true ∧
    isWithinSessionWindow (some (now - 25 * MS_PER_HOUR)) now = false ∧
    isWithinSessionWindow none now = false ∧
    (isWithinSessionWindow u.lastInboundAt now = true →
      sendReminderMessage u task now =
        (.interactiveButtons u.whatsappNumber
            ("🔔 reminder: " ++ task.title ++ "\n(" ++
              reminderTimeStr u task now ++ ")\n\ndone?")
            [("action_done_" ++ task.id, "✅ Done"),
             ("action_snooze_" ++ task.id, "⏰ Snooze"),
             ("action_edit_" ++ task.id, "✏️ Edit")],
          DeliveryMode.SESSION_FREEFORM)) ∧
    (isWithinSessionWindow u.lastInboundAt now = false →
      sendReminderMessage u task now =
        (.template u.whatsappNumber WHATSAPP_REMINDER_TEMPLATE_NAME
            [truncate task.title 60, reminderTimeStr u task now],
          DeliveryMode.TEMPLATE)) ∧
    (∀ (s : SystemState) (rid : String) (r : Reminder) (res : SendMessageResult),
      findReminder s rid = some r →
      r.state = ReminderState.SCHEDULED →
      findTask s r.taskId = some task →
      ¬ task.status = TaskStatus.DONE →
      r.retriesCount < MAX_REMINDER_RETRIES →
      findUser s r.userId = some u →
      res.success = true →
      (findReminder (processReminder s rid res now).1 rid).map
          (fun x => x.deliveryMode) =
        some (some (sendReminderMessage u task now).2) ∧
      (processReminder s rid res now).1.outbox =
        s.outbox ++ [(sendReminderMessage u task now).1]) := by
  refine ⟨?_, ?_, ?_, ?_, ?_, ?_⟩
  · simp [isWithinSessionWindow, WHATSAPP_SESSION_WINDOW_MS, MS_PER_HOUR]
  · simp [isWithinSessionWindow, WHATSAPP_SESSION_WINDOW_MS, MS_PER_HOUR]
  · rfl
  · intro hin
    simp only [sendReminderMessage]
    rw [hin]
    rfl
  · intro hout
    simp only [sendReminderMessage]
    rw [hout]
    rfl
  · intro s rid r res hfr hst hft htk hre hfu hsucc
    have hforward : processReminder s rid res now =
        ({ markReminderSent
              { s with outbox := s.outbox ++ [(sendReminderMessage u task now).1] }
              rid res.messageId (some (sendReminderMessage u task now).2) now with
            events := (markReminderSent
              { s with outbox := s.outbox ++ [(sendReminderMessage u task now).1] }
              rid res.messageId (some (sendReminderMessage u task now).2) now).events
              ++ ["OUTBOUND:" ++ r.userId] },
          WorkerOutcome.completed) := by
      simp only [processReminder, hfr]
      rw [if_neg (by simp [hst])]
      simp only [hft]
      rw [if_neg htk]
      rw [if_neg (by omega)]
      simp only [hfu]
      rw [if_pos hsucc]
    refine ⟨?_, by rw [hforward]; rfl⟩
    rw [hforward]
    have e1 : findReminder
        ({ markReminderSent
              { s with outbox := s.outbox ++ [(sendReminderMessage u task now).1] }
              rid res.messageId (some (sendReminderMessage u task now).2) now with
            events := (markReminderSent
              { s with outbox := s.outbox ++ [(sendReminderMessage u task now).1] }
              rid res.messageId (some (sendReminderMessage u task now).2) now).events
              ++ ["OUTBOUND:" ++ r.userId] },
          WorkerOutcome.completed).1 rid =
        findReminder (markReminderSent
          { s with outbox := s.outbox ++ [(sendReminderMessage u task now).1] }
          rid res.messageId (some (sendReminderMessage u task now).2) now) rid :=
      findReminder_of_parts rfl rid
    rw [e1, findReminder_markReminderSent]
    have hfr2 : findReminder
        { s with outbox := s.outbox ++ [(sendReminderMessage u task now).1] } rid =
        some r := hfr
    rw [hfr2]
    rfl

/-- Witness for C3 (session and template scenarios at the fixture). -/
theorem c3_delivery_mode_decision_witness :
    isWithinSessionWindow (some ((5000 : Int) - 23 * MS_PER_HOUR)) 5000 = true ∧
    sendReminderMessage userFix taskFix 5000 =
      (.interactiveButtons "+919999999999"
          ("🔔 reminder: send the deck\n(" ++
            reminderTimeStr userFix taskFix 5000 ++ ")\n\ndone?")
          [("action_done_t1", "✅ Done"), ("action_snooze_t1", "⏰ Snooze"),
           ("action_edit_t1", "✏️ Edit")],
        DeliveryMode.SESSION_FREEFORM) ∧
    sendReminderMessage ({ userFix with lastInboundAt := none }) taskFix 5000 =
      (.template "+919999999999" WHATSAPP_REMINDER_TEMPLATE_NAME
          [truncate "send the deck" 60,
            reminderTimeStr ({ userFix with lastInboundAt := none }) taskFix 5000],
        DeliveryMode.TEMPLATE) ∧
    (findReminder (processReminder sFix "r1" resOk 5000).1 "r1").map
        (fun x => x.deliveryMode) =
      some (some (sendReminderMessage userFix taskFix 5000).2) := by
  refine ⟨(c3_delivery_mode_decision userFix taskFix 5000).1, ?_, ?_, ?_⟩
  · exact (c3_delivery_mode_decision userFix taskFix 5000).2.2.2.1 (by decide)
  · exact (c3_delivery_mode_decision
      ({ userFix with lastInboundAt := none }) taskFix 5000).2.2.2.2.1 (by decide)
  · exact ((c3_delivery_mode_decision userFix taskFix 5000).2.2.2.2.2 sFix "r1"
      remFix resOk (by decide) (by decide) (by decide) (by decide) (by decide)
      (by decide) (by decide)).1

/-- C4: retry ceiling.  A delivery attempt on a SCHEDULED reminder whose
`retriesCount` has reached `MAX_REMINDER_RETRIES` (3) marks it FAILED
without any outbound message; the sweeper's stuck scan selects only
SCHEDULED reminders, so a FAILED reminder is never re-enqueued; and the
worker is a no-op on a FAILED (terminal) reminder. -/
theorem c4_retry_ceiling (s : SystemState) (rid : String)
    (res : SendMessageResult) (now : Int) (r : Reminder) (task : Task)
    (hfr : findReminder s rid = some r)
    (hst : r.state = ReminderState.SCHEDULED)
    (hft : findTask s r.taskId = some task)
    (htk : ¬ task.status = TaskStatus.DONE)
    (hmax : MAX_REMINDER_RETRIES ≤ r.retriesCount) :
    processReminder s rid res now =
      (markReminderFailed s rid "Max retries exceeded", WorkerOutcome.completed) ∧
    findReminder (processReminder s rid res now).1 rid =
      some { r with
             state := ReminderState.FAILED,
             lastError := some "Max retries exceeded",
             retriesCount := r.retriesCount + 1 } ∧
    (processReminder s rid res now).1.outbox = s.outbox ∧
    (∀ (s2 : SystemState) (now2 : Int) (x : Reminder),
      x ∈ getStuckReminders s2 now2 → x.state = ReminderState.SCHEDULED) ∧
    (∀ (s2 : SystemState) (now2 : Int) (j : Job),
      j ∈ (runSweeperOnce s2 now2).jobs →
        j ∈ s2.jobs ∨ ∃ x ∈ s2.reminders,
          x.state = ReminderState.SCHEDULED ∧ j.reminderId = x.id) ∧
    (∀ (s2 : SystemState) (rid2 : String) (res2 : SendMessageResult)
        (now2 : Int) (x : Reminder),
      findReminder s2 rid2 = some x → x.state = ReminderState.FAILED →
      processReminder s2 rid2 res2 now2 = (s2, WorkerOutcome.completed)) := by
  have hforward : processReminder s rid res now =
      (markReminderFailed s rid "Max retries exceeded", WorkerOutcome.completed) := by
    simp only [processReminder, hfr]
    rw [if_neg (by simp [hst])]
    simp only [hft]
    rw [if_neg htk]
    rw [if_pos hmax]
  refine ⟨hforward, ?_, by rw [hforward]; rfl, ?_, ?_, ?_⟩
  · rw [hforward]
    show findReminder (markReminderFailed s rid "Max retries exceeded") rid = _
    rw [findReminder_markReminderFailed, hfr]
    rfl
  · intro s2 now2 x hx
    exact (mem_getStuckReminders hx).2.1
  · intro s2 now2 j hj
    exact sweeper_jobs_from_scheduled s2 now2 j hj
  · intro s2 rid2 res2 now2 x hfind hfailed
    simp only [processReminder, hfind]
    rw [if_pos (by simp [hfailed])]

/-- Witness for C4 at a fixture whose reminder exhausted its retries. -/
theorem c4_retry_ceiling_witness :
    processReminder
        ({ sFix with reminders := [({ remFix with retriesCount := 3 })] })
        "r1" resOk 5000 =
      (markReminderFailed
        ({ sFix with reminders := [({ remFix with retriesCount := 3 })] })
        "r1" "Max retries exceeded", WorkerOutcome.completed) :=
  (c4_retry_ceiling
    ({ sFix with reminders := [({ remFix with retriesCount := 3 })] })
    "r1" resOk 5000 ({ remFix with retriesCount := 3 }) taskFix
    (by decide) (by decide) (by decide) (by decide) (by decide)).1

/-- C7: on a failed send attempt the worker does not mark the reminder
FAILED: it records the error text, returns the reminder to SCHEDULED with
`retriesCount` incremented by exactly one, and re-throws the error so the
queue's retry/backoff policy re-attempts delivery. -/
theorem c7_send_failure_keeps_scheduled (s : SystemState) (rid : String)
    (res : SendMessageResult) (now : Int) (r : Reminder) (task : Task) (u : User)
    (hfr : findReminder s rid = some r)
    (hst : r.state = ReminderState.SCHEDULED)
    (hft : findTask s r.taskId = some task)
    (htk : ¬ task.status = TaskStatus.DONE)
    (hre : r.retriesCount < MAX_REMINDER_RETRIES)
    (hfu : findUser s r.userId = some u)
    (hfail : res.success = false) :
    (processReminder s rid res now).2 =
      WorkerOutcome.thrown
        ("Error: " ++ res.error.getD "Unknown error sending reminder") ∧
    findReminder (processReminder s rid res now).1 rid =
      some { r with
             state := ReminderState.SCHEDULED,
             lastError :=
               some ("Error: " ++ res.error.getD "Unknown error sending reminder"),
             retriesCount := r.retriesCount + 1 } := by
  have hforward : processReminder s rid res now =
      (updateReminderState
          { s with outbox := s.outbox ++ [(sendReminderMessage u task now).1] }
          rid .SCHEDULED none none
          (some ("Error: " ++ res.error.getD "Unknown error sending reminder")),
        WorkerOutcome.thrown
          ("Error: " ++ res.error.getD "Unknown error sending reminder")) := by
    simp only [processReminder, hfr]
    rw [if_neg (by simp [hst])]
    simp only [hft]
    rw [if_neg htk]
    rw [if_neg (by omega)]
    simp only [hfu]
    rw [if_neg (by simp [hfail])]
  refine ⟨by rw [hforward], ?_⟩
  rw [hforward]
  show findReminder (updateReminderState _ rid _ none none _) rid = _
  rw [findReminder_recordFailure]
  have hfr2 : findReminder
      { s with outbox := s.outbox ++ [(sendReminderMessage u task now).1] } rid =
      some r := hfr
  rw [hfr2]
  rfl

/-- Cancelling a task's reminders twice cancels exactly once (row view). -/
lemma cancel_twice_reminders (s : SystemState) (tid : String) :
    (cancelTaskReminders (cancelTaskReminders s tid) tid).reminders =
      s.reminders.map fun r =>
        if r.taskId = tid ∧ r.state = ReminderState.SCHEDULED then
          { r with state := ReminderState.CANCELED }
        else r := by
  unfold cancelTaskReminders
  simp only [List.map_map]
  apply List.map_congr_left
  intro r _
  by_cases h : r.taskId = tid ∧ r.state = ReminderState.SCHEDULED
  · simp [Function.comp, h]
  · simp [Function.comp, h]

/-- The second cancellation removes no further jobs (no reminder of the
task is still SCHEDULED). -/
lemma cancel_twice_jobs (s : SystemState) (tid : String) :
    (cancelTaskReminders (cancelTaskReminders s tid) tid).jobs =
      (cancelTaskReminders s tid).jobs := by
  have hnil : (cancelTaskReminders s tid).reminders.filter
      (fun r => decide (r.taskId = tid ∧ r.state = ReminderState.SCHEDULED)) = [] := by
    unfold cancelTaskReminders
    apply filter_map_nil_of_false
    intro r _
    by_cases h : r.taskId = tid ∧ r.state = ReminderState.SCHEDULED
    · simp [h]
    · simp [h]
  show ((cancelTaskReminders s tid).jobs.filter _) = _
  rw [show ((cancelTaskReminders s tid).reminders.filter fun r =>
      decide (r.taskId = tid ∧ r.state = ReminderState.SCHEDULED)) = [] from hnil]
  simp

/-- C8: marking a task DONE while it has SCHEDULED reminders transitions
every SCHEDULED reminder of that task to CANCELED and removes each such
reminder's pending delayed job from the queue; every other reminder row is
left untouched, and the task row itself becomes DONE. -/
theorem c8_done_cancels_scheduled (s : SystemState) (tid : String) (now : Int)
    (t0 : Task) (hft : findTask s tid = some t0) :
    (markTaskDone s tid now).2 =
      Except.ok ({ t0 with status := TaskStatus.DONE }) ∧
    (markTaskDone s tid now).1.reminders =
      (s.reminders.map fun r =>
        if r.taskId = tid ∧ r.state = ReminderState.SCHEDULED then
          { r with state := ReminderState.CANCELED }
        else r) ∧
    (markTaskDone s tid now).1.jobs =
      (s.jobs.filter fun j =>
        !((s.reminders.filter fun r =>
            decide (r.taskId = tid ∧ r.state = ReminderState.SCHEDULED)).any
          fun r => r.id = j.reminderId)) ∧
    (markTaskDone s tid now).1.tasks =
      (s.tasks.map fun x =>
        if x.id = tid then ({ t0 with status := TaskStatus.DONE }) else x) := by
  have hmove : markTaskDone s tid now =
      (cancelTaskReminders (cancelTaskReminders
          { s with tasks := s.tasks.map fun x =>
              if x.id = tid then applyTaskUpdate t0 { status := some .DONE } else x }
          tid) tid,
        Except.ok (applyTaskUpdate t0 { status := some .DONE })) := by
    simp only [markTaskDone, moveTask, updateTask, hft]
    rw [if_pos (by simp [applyTaskUpdate])]
    rw [if_neg (by simp [applyTaskUpdate])]
    rfl
  refine ⟨by rw [hmove]; rfl, ?_, ?_, by rw [hmove]; rfl⟩
  · rw [hmove]
    show (cancelTaskReminders (cancelTaskReminders _ tid) tid).reminders = _
    rw [cancel_twice_reminders]
  · rw [hmove]
    show (cancelTaskReminders (cancelTaskReminders _ tid) tid).jobs = _
    rw [cancel_twice_jobs]
    rfl

/-- Witness for C8 at the fixture with a SCHEDULED reminder and its job. -/
theorem c8_done_cancels_scheduled_witness :
    (markTaskDone sFix "t1" 6000).2 =
      Except.ok ({ taskFix with status := TaskStatus.DONE }) ∧
    (markTaskDone sFix "t1" 6000).1.reminders =
      [({ remFix with state := ReminderState.CANCELED })] ∧
    (markTaskDone sFix "t1" 6000).1.jobs = [] := by
  obtain ⟨h1, h2, h3, h4⟩ := c8_done_cancels_scheduled sFix "t1" 6000 taskFix
    (by decide)
  refine ⟨h1, ?_, ?_⟩
  · rw [h2]; decide
  · rw [h3]; decide

/-- C9 counterexample: on `done: 42` with no task `42`, the action's
failure surfaces as the single top-level catch's `action = "error"` result
and NO user-facing message is sent (the outbox stays empty), refuting the
per-action catch-and-notify reading. -/
theorem c9_counterexample :
    ((handleInboundMessage sFix "+919999999999" "done: 42"
        1705293000000 none 0).2 =
      { success := false, action := "error",
        error := some "Error: Task not found" }) ∧
    (handleInboundMessage sFix "+919999999999" "done: 42"
        1705293000000 none 0).1.outbox = [] := by
  decide

/-- C9 (amended): a failure raised while acting on a parsed intent is
caught once at the dispatcher's top level and converted into the structured
`{success := false, action := "error", error}` result, with the state left
exactly as the failing action left it (in particular the catch path sends
no message); the dispatcher never propagates the exception. -/
theorem c9_top_level_catch (s : SystemState) (phone text : String)
    (now : Int) (mid : Option String) (rand : Nat) (s4 : SystemState)
    (e : String)
    (honb : (getOrCreateUserByWhatsApp s phone).2.isOnboarded = true)
    (herr : processIntent
        (logMessageEvent
          (updateLastInbound (getOrCreateUserByWhatsApp s phone).1
            (getOrCreateUserByWhatsApp s phone).2.id now)
          (getOrCreateUserByWhatsApp s phone).2.id "INBOUND")
        (getOrCreateUserByWhatsApp s phone).2
        (parseMessage text (getOrCreateUserByWhatsApp s phone).2.tzOffsetMin
          now)
        now mid rand = (s4, Except.error e)) :
    handleInboundMessage s phone text now mid rand =
      (s4, { success := false, action := "error",
             error := some ("Error: " ++ e) }) := by
  simp only [handleInboundMessage, handleInboundMessageGo]
  rw [if_neg (by rw [honb]; simp)]
  rw [herr]

/-- Witness for C9 at the `done: 42` fixture input. -/
theorem c9_top_level_catch_witness :
    handleInboundMessage sFix "+919999999999" "done: 42"
        1705293000000 none 0 =
      ({ users := [({ userFix with lastInboundAt := some 1705293000000 })],
         tasks := [taskFix], reminders := [remFix],
         jobs := [{ reminderId := "r1", taskId := "t1", userId := "u1",
                    runAt := 5000 }],
         events := ["INBOUND:u1"] },
       { success := false, action := "error",
         error := some ("Error: " ++ "Task not found") }) :=
  c9_top_level_catch sFix "+919999999999" "done: 42" 1705293000000 none 0
    _ "Task not found" (by decide) (by decide)

/-- A present, non-empty task reference is not JS-falsy. -/
lemma strFalsy_some_ne (tid : String) (h : tid ≠ "") :
    strFalsy (some tid) = false := by
  cases tid with
  | mk data =>
    cases data with
    | nil => exact absurd rfl h
    | cons c cs => rfl

/-- C10: the dispatcher treats a parsed snooze duration of 15 minutes the
same as no duration at all: (i) `handleSnooze` on `snoozeMinutes = some 15`
equals `handleSnooze` with the duration erased; (ii) the text `snooze 15`
parses to a snooze intent with duration 15; (iii) with a task reference and
a missing or 15-minute duration the dispatcher sends the snooze-options
menu and leaves reminders and jobs untouched; (iv) a `task_snoozed` result
happens only when a duration is set and is neither 0 nor 15. -/
theorem c10_snooze_fifteen_is_menu :
    (∀ (s : SystemState) (u : User) (p : AIParsedResult) (now : Int),
      p.snoozeMinutes = some 15 →
        handleSnooze s u p now =
          handleSnooze s u ({ p with snoozeMinutes := none }) now) ∧
    (∀ off now : Int,
      (parseWithRules "snooze 15" off now).intent = Intent.snooze ∧
      (parseWithRules "snooze 15" off now).snoozeMinutes = some 15) ∧
    (∀ (s : SystemState) (u : User) (p : AIParsedResult) (now : Int)
        (tid : String),
      p.taskId = some tid → tid ≠ "" →
      (p.snoozeMinutes = none ∨ p.snoozeMinutes = some 15) →
        handleSnooze s u p now =
          (sendSnoozeOptions s u tid,
            Except.ok { success := true, action := "snooze_options_sent" }) ∧
        (handleSnooze s u p now).1.reminders = s.reminders ∧
        (handleSnooze s u p now).1.jobs = s.jobs) ∧
    (∀ (s : SystemState) (u : User) (p : AIParsedResult) (now : Int)
        (r : HandleMessageResult),
      (handleSnooze s u p now).2 = Except.ok r → r.action = "task_snoozed" →
        ∃ m, p.snoozeMinutes = some m ∧ m ≠ 15 ∧ m ≠ 0) := by
  refine ⟨?_, ?_, ?_, ?_⟩
  · intro s u p now h15
    simp [handleSnooze, h15, DEFAULT_SNOOZE_MINUTES]
  · intro off now
    exact ⟨rfl, rfl⟩
  · intro s u p now tid htid hne h15
    have hmain : handleSnooze s u p now =
        (sendSnoozeOptions s u tid,
          Except.ok { success := true, action := "snooze_options_sent" }) := by
      simp only [handleSnooze, htid, strFalsy_some_ne tid hne]
      rcases h15 with h | h <;>
        simp [h, DEFAULT_SNOOZE_MINUTES, strFalsy_some_ne tid hne]
    exact ⟨hmain, by rw [hmain]; rfl, by rw [hmain]; rfl⟩
  · intro s u p now r hok hact
    cases hm : p.snoozeMinutes with
    | some m =>
      by_cases hb : ((m = 0 : Bool) || (m = DEFAULT_SNOOZE_MINUTES : Bool)) = true
      · -- a falsy-or-15 duration cannot have produced `task_snoozed`
        exfalso
        by_cases hf : strFalsy p.taskId = true
        · cases hg : getRecentSentReminder s u.id now with
          | none =>
            simp [handleSnooze, hf, hg, hm, hb] at hok
            rw [← hok] at hact
            exact absurd hact (by decide)
          | some pr =>
            obtain ⟨rr, topt⟩ := pr
            cases topt with
            | none => simp [handleSnooze, hf, hg] at hok
            | some t =>
              by_cases hte : strFalsy (some t.id) = true
              · simp [handleSnooze, hf, hg, hte, hm, hb] at hok
                rw [← hok] at hact
                exact absurd hact (by decide)
              · simp [handleSnooze, hf, hg, hte, hm, hb] at hok
                rw [← hok] at hact
                exact absurd hact (by decide)
        · simp [handleSnooze, hf, hm, hb] at hok
          rw [← hok] at hact
          exact absurd hact (by decide)
      · refine ⟨m, rfl, ?_, ?_⟩
        · intro hc
          exact hb (by simp [hc, DEFAULT_SNOOZE_MINUTES])
        · intro hc
          exact hb (by simp [hc])
    | none =>
      exfalso
      by_cases hf : strFalsy p.taskId = true
      · cases hg : getRecentSentReminder s u.id now with
        | none =>
          simp [handleSnooze, hf, hg, hm] at hok
          rw [← hok] at hact
          exact absurd hact (by decide)
        | some pr =>
          obtain ⟨rr, topt⟩ := pr
          cases topt with
          | none => simp [handleSnooze, hf, hg] at hok
          | some t =>
            by_cases hte : strFalsy (some t.id) = true
            · simp [handleSnooze, hf, hg, hte, hm] at hok
              rw [← hok] at hact
              exact absurd hact (by decide)
            · simp [handleSnooze, hf, hg, hte, hm] at hok
              rw [← hok] at hact
              exact absurd hact (by decide)
      · simp [handleSnooze, hf, hm] at hok
        rw [← hok] at hact
        exact absurd hact (by decide)

/-- Witness for C10: at the fixture, `snoozeMinutes = some 15` with task
reference `t1` yields exactly the options menu, and a 30-minute snooze is a
duration that is set and differs from 15. -/
theorem c10_snooze_fifteen_is_menu_witness :
    handleSnooze sFix userFix
        { intent := .snooze, taskId := some "t1",
          snoozeMinutes := some 15, confidence := 90 } 6000 =
      handleSnooze sFix userFix
        { intent := .snooze, taskId := some "t1",
          snoozeMinutes := none, confidence := 90 } 6000 ∧
    handleSnooze sFix userFix
        { intent := .snooze, taskId := some "t1",
          snoozeMinutes := some 15, confidence := 90 } 6000 =
      (sendSnoozeOptions sFix userFix "t1",
        Except.ok { success := true, action := "snooze_options_sent" }) ∧
    (∃ m, ({ intent := .snooze, taskId := some "t1",
             snoozeMinutes := some 30,
             confidence := 90 : AIParsedResult }).snoozeMinutes = some m ∧
      m ≠ 15 ∧ m ≠ 0) :=
  ⟨c10_snooze_fifteen_is_menu.1 sFix userFix
      { intent := .snooze, taskId := some "t1",
        snoozeMinutes := some 15, confidence := 90 } 6000 rfl,
   (c10_snooze_fifteen_is_menu.2.2.1 sFix userFix
      { intent := .snooze, taskId := some "t1",
        snoozeMinutes := some 15, confidence := 90 } 6000 "t1" rfl
      (by decide) (Or.inr rfl)).1,
   c10_snooze_fifteen_is_menu.2.2.2 sFix userFix
      { intent := .snooze, taskId := some "t1",
        snoozeMinutes := some 30, confidence := 90 } 6000
      { success := true, action := "task_snoozed",
        task := some ({ taskFix with reminderAt := some 1806000 }) }
      (by decide) rfl⟩

/-- Witness for C7 at the fixture with a failing transport. -/
theorem c7_send_failure_keeps_scheduled_witness :
    (processReminder sFix "r1" resFail 5000).2 =
      WorkerOutcome.thrown "Error: timeout" ∧
    findReminder (processReminder sFix "r1" resFail 5000).1 "r1" =
      some ({ remFix with
              state := ReminderState.SCHEDULED,
              lastError := some "Error: timeout", retriesCount := 1 }) :=
  c7_send_failure_keeps_scheduled sFix "r1" resFail 5000 remFix taskFix userFix
    (by decide) (by decide) (by decide) (by decide) (by decide) (by decide)
    (by decide)

end WaProd
